import Mathlib

/-!
# go-traceroute: the probing engine of `cmd/go-traceroute/main.go`

A shallow embedding of `sendProbes` (one TTL pass) and `runTraceroute` (the TTL
sweep).  The operating system and the network are an explicit environment
`Env`: the outcome of the send-side system calls of every probe, the stream of
results of `recvConn.ReadFrom` on the shared ICMP connection, and the clock
readings.  Both loops are state machines: a state record holding the local
variables of the Go function and a step function that is one evaluation of the
loop guard followed by one loop body.

Text written to standard output (and the local `ttlPrinted`, which only steers
it) is not part of the embedding.  The Go type `int` is the 64-bit one, a
string header takes 16 bytes, and a `make` that the runtime cannot satisfy
ends the run.
-/

namespace Traceroute

/-! ## Data model -/

/-- Configuration record `TracerouteConfig` (main.go, lines 94-104). -/
structure TracerouteConfig where
  hostname : String
  packetSize : Int
  firstTTL : Int
  maxTTL : Int
  basePort : Int
  waitTime : Int
  numProbes : Int
  destIP : String
  destHostname : String

/-- Go `int` and `int64` arithmetic on a 64-bit platform: two's complement wrap-around. -/
def wrapInt (x : Int) : Int := (x + 2 ^ 63) % 2 ^ 64 - 2 ^ 63

/-- ICMP type numbers of `golang.org/x/net/ipv4` (the IANA values). -/
def ICMPTypeEchoReply : Nat := 0

/-- ICMP type `ipv4.ICMPTypeDestinationUnreachable`. -/
def ICMPTypeDestinationUnreachable : Nat := 3

/-- ICMP type `ipv4.ICMPTypeTimeExceeded`. -/
def ICMPTypeTimeExceeded : Nat := 11

/-- Outcome of the system calls of the send side of one probe (main.go, lines
190-223): the first call that fails, or `sent` when the datagram is written
and the read deadline is installed. -/
inductive Setup where
  | resolveErr
  | dialErr
  | setTTLErr
  | writeErr
  | deadlineErr
  | sent
  deriving DecidableEq, Repr

/-- Result of one `recvConn.ReadFrom` followed by `icmp.ParseMessage`:
`timeout` is an error `e` with `e.Timeout()`, `ioError` any other error,
`packet none peer` a datagram that does not parse, `packet (some ty) peer` a
parsed message of ICMP type `ty` sent by `peer` (`peer.IP.String()`). -/
inductive ReadResult where
  | timeout
  | ioError
  | packet (ty : Option Nat) (peer : String)
  deriving DecidableEq, Repr

/-- One slot of the `results` slice: `unset` is the zero value `""` left by
`make`, `star` is `"*"`, and `rtt d` is the text `fmt.Sprintf("%.3f ms", ...)`
of a round-trip time of `d` nanoseconds. -/
inductive Entry where
  | unset
  | star
  | rtt (d : Int)
  deriving DecidableEq, Repr

/-- Ways in which `runTraceroute` can stop other than by the end of its loop:
the three errors it returns, and `makeslicePanic` for a `make` that does not
yield a slice (the panic `makeslice: len out of range`, or the death of the
program for want of memory), after which nothing is returned. -/
inductive RunError where
  | insufficientPrivileges
  | listenFailed
  | readFailed
  | makeslicePanic
  deriving DecidableEq, Repr

/-- The environment of one run. -/
structure Env where
  /-- result of the privilege test of line 146 -/
  privileged : Bool
  /-- whether `icmp.ListenPacket` succeeds (line 151) -/
  listenOk : Bool
  /-- outcome of the send-side system calls of probe `probe` of the pass for `ttl` -/
  setup : Int → Nat → Setup
  /-- the `k`-th read on the shared receive connection, counted over the run -/
  listener : Nat → ReadResult
  /-- reading of `time.Now()` at line 209 -/
  tStart : Int → Nat → Int
  /-- reading of `time.Now()` at line 219, the base of the read deadline -/
  tArmed : Int → Nat → Int
  /-- reading of the clock by `time.Since(start)` at line 226 -/
  tDone : Int → Nat → Int
  /-- number of bytes the program can obtain for one slice -/
  memLimit : Nat

/-- Largest size of one allocation that the Go runtime accepts, `maxAlloc`,
with the 48-bit heap addresses of the 64-bit platforms. -/
def maxAlloc : Int := 2 ^ 48

/-- Whether `make` yields a slice of `len` elements of `elem` bytes each: the
runtime panics on a negative length and on a size above `maxAlloc`, and the
program dies when the size is more than the environment supplies. -/
def allocOk (env : Env) (len elem : Int) : Bool :=
  decide (0 ≤ len ∧ len * elem ≤ maxAlloc ∧ len * elem ≤ env.memLimit)

/-- State of the world threaded through the run: the number of reads made on
the receive connection so far, and the trace of probe attempts `(ttl, probe)`
(one per entered loop body of `sendProbes`), oldest first. -/
structure World where
  reads : Nat
  issued : List (Int × Nat)
  deriving DecidableEq, Repr

/-- The duration `time.Duration(config.waitTime) * time.Second` in nanoseconds. -/
def waitDuration (cfg : TracerouteConfig) : Int := wrapInt (cfg.waitTime * 1000000000)

/-! ## `sendProbes` -/

/-- Local variables of `sendProbes` between two loop iterations; `fatal` is
set once the function has left its loop for good: `readFailed` for the return
of line 238, `makeslicePanic` for a `make` that does not yield a slice. -/
structure ProbeState where
  probe : Nat
  respondingIP : String
  results : List Entry
  allFailed : Bool
  fatal : Option RunError
  world : World
  deriving DecidableEq, Repr

/-- The end of the run inside a `make` of the loop body. -/
def ProbeState.crash (s : ProbeState) (w : World) : ProbeState :=
  { s with fatal := some RunError.makeslicePanic, world := w }

/-- The branches `results[probe] = "*"; continue`. -/
def ProbeState.miss (s : ProbeState) (w : World) : ProbeState :=
  { s with results := s.results.set s.probe Entry.star, probe := s.probe + 1, world := w }

/-- The branches that record an RTT, the sender and clear `allFailed`
(lines 257-259, 262-264, 275-277). -/
def ProbeState.hit (s : ProbeState) (w : World) (d : Int) (peerIP : String) : ProbeState :=
  { s with results := s.results.set s.probe (Entry.rtt d), respondingIP := peerIP,
           allFailed := false, probe := s.probe + 1, world := w }

/-- One evaluation of the guard `probe < config.numProbes` and of the loop body
(lines 189-279).  The payload `make([]byte, config.packetSize)` of line 211 is
built once `SetTTL` has succeeded, the buffer `make([]byte, 1500)` of line 218
once the write has. -/
def probeStep (ttl : Int) (cfg : TracerouteConfig) (env : Env) (s : ProbeState) : ProbeState :=
  if s.fatal.isSome = true ∨ ¬ ((s.probe : Int) < cfg.numProbes) then s
  else
    let w : World := { s.world with issued := s.world.issued ++ [(ttl, s.probe)] }
    match env.setup ttl s.probe with
    | Setup.resolveErr => s.miss w
    | Setup.dialErr => s.miss w
    | Setup.setTTLErr => s.miss w
    | Setup.writeErr =>
      if allocOk env cfg.packetSize 1 = true then s.miss w else s.crash w
    | Setup.deadlineErr =>
      if allocOk env cfg.packetSize 1 = true then
        if allocOk env 1500 1 = true then s.miss w else s.crash w
      else s.crash w
    | Setup.sent =>
      if allocOk env cfg.packetSize 1 = true then
        if allocOk env 1500 1 = true then
          let w1 : World := { w with reads := w.reads + 1 }
          let rtt := env.tDone ttl s.probe - env.tStart ttl s.probe
          match env.listener s.world.reads with
          | ReadResult.timeout => s.miss w1
          | ReadResult.ioError => { s with fatal := some RunError.readFailed, world := w1 }
          | ReadResult.packet none _ => s.miss w1
          | ReadResult.packet (some ty) peerIP =>
            if ty = ICMPTypeTimeExceeded ∨ ty = ICMPTypeDestinationUnreachable then
              s.hit w1 rtt peerIP
            else if ty = ICMPTypeEchoReply then
              if peerIP = cfg.destIP then s.hit w1 rtt peerIP else s.miss w1
            else
              s.hit w1 rtt peerIP
        else s.crash w
      else s.crash w

/-- Values of the locals before the loop (lines 184-187). -/
def probeInit (cfg : TracerouteConfig) (w : World) : ProbeState :=
  { probe := 0, respondingIP := "", results := List.replicate cfg.numProbes.toNat Entry.unset,
    allFailed := true, fatal := none, world := w }

/-- State of `sendProbes` after `k` steps of its loop. -/
def probeRun (ttl : Int) (cfg : TracerouteConfig) (env : Env) (w : World) : Nat → ProbeState
  | 0 => probeInit cfg w
  | k + 1 => probeStep ttl cfg env (probeRun ttl cfg env w k)

/-- The four values returned by `sendProbes`. -/
structure ProbesReturn where
  respondingIP : String
  results : List Entry
  allFailed : Bool
  err : Option RunError
  deriving DecidableEq, Repr

/-- The function `sendProbes` (lines 183-287).  The run ends in
`make([]string, config.numProbes)` of line 185 when that slice cannot be
made; otherwise the loop runs its `numProbes` steps and the function returns
through line 238 or through line 286, unless a `make` of the loop body ended
the run. -/
def sendProbes (ttl : Int) (cfg : TracerouteConfig) (env : Env) (w : World) :
    ProbesReturn × World :=
  if allocOk env cfg.numProbes 16 = true then
    let s := probeRun ttl cfg env w cfg.numProbes.toNat
    match s.fatal with
    | some e =>
      ({ respondingIP := "", results := [], allFailed := false, err := some e }, s.world)
    | none =>
      ({ respondingIP := s.respondingIP, results := s.results, allFailed := s.allFailed,
         err := none }, s.world)
  else
    ({ respondingIP := "", results := [], allFailed := false,
       err := some RunError.makeslicePanic }, w)

/-! ## `runTraceroute` -/

/-- One call of `sendProbes` made by the sweep, with what it returned. -/
structure Pass where
  ttl : Int
  ret : ProbesReturn
  deriving DecidableEq, Repr

/-- Local variables of `runTraceroute` between two iterations of the TTL loop.
`err` is set once the function has returned an error; `passes` is the trace of
the calls of `sendProbes`, oldest first. -/
structure SweepState where
  ttl : Int
  destinationReached : Bool
  err : Option RunError
  passes : List Pass
  world : World
  deriving DecidableEq, Repr

/-- The loop bound `config.firstTTL+config.maxTTL` (line 160). -/
def ttlBound (cfg : TracerouteConfig) : Int := wrapInt (cfg.firstTTL + cfg.maxTTL)

/-- One evaluation of the guard
`ttl < config.firstTTL+config.maxTTL && !destinationReached` and of the loop
body (lines 160-177).  `ttl++` cannot overflow: it runs only when `ttl` is
below the bound.  A pass that ends the run in a `make` is treated like one
that returns an error: the loop is left and `err` records why. -/
def sweepStep (cfg : TracerouteConfig) (env : Env) (s : SweepState) : SweepState :=
  if s.err.isSome = true ∨ ¬ (s.ttl < ttlBound cfg ∧ s.destinationReached = false) then s
  else
    let r := sendProbes s.ttl cfg env s.world
    match r.1.err with
    | some e => { s with err := some e, passes := s.passes ++ [⟨s.ttl, r.1⟩], world := r.2 }
    | none =>
      { ttl := s.ttl + 1,
        destinationReached := if r.1.respondingIP = cfg.destIP then true else s.destinationReached,
        err := none,
        passes := s.passes ++ [⟨s.ttl, r.1⟩],
        world := r.2 }

/-- State of `runTraceroute` after `k` steps of the TTL loop, from `s`. -/
def sweepRun (cfg : TracerouteConfig) (env : Env) (s : SweepState) : Nat → SweepState
  | 0 => s
  | k + 1 => sweepStep cfg env (sweepRun cfg env s k)

/-- Values of the locals when the TTL loop is entered (lines 157, 160). -/
def sweepInit (cfg : TracerouteConfig) : SweepState :=
  { ttl := cfg.firstTTL, destinationReached := false, err := none, passes := [],
    world := { reads := 0, issued := [] } }

/-- Number of TTL values between `firstTTL` and the loop bound: after that
many steps the guard of the TTL loop is false. -/
def ttlBudget (cfg : TracerouteConfig) : Nat := (ttlBound cfg - cfg.firstTTL).toNat

/-- The function `runTraceroute` (lines 143-180): the two start-up checks, then
the TTL loop run to its end.  Where the Go function returns `err`, this one
returns the final values of its locals, `err` among them, with the traces. -/
def runTraceroute (cfg : TracerouteConfig) (env : Env) : SweepState :=
  if env.privileged = false then
    { sweepInit cfg with err := some RunError.insufficientPrivileges }
  else if env.listenOk = false then
    { sweepInit cfg with err := some RunError.listenFailed }
  else
    sweepRun cfg env (sweepInit cfg) (ttlBudget cfg)

/-! ## Specification-side vocabulary

The definitions below are not translated from the code: they name what the
environment delivers to each probe, and the classification of section 4.3 of
the specification, so that statements about whole passes can be written. -/

/-- Classes of a parsed ICMP message (specification, section 4.3). -/
inductive Signal where
  | hop
  | destination
  | noise
  | unclassified
  deriving DecidableEq, Repr

/-- Classifier of the specification: time exceeded and destination unreachable
are a `hop` signal, an echo reply is a `destination` signal when its sender is
the configured destination and `noise` otherwise, any other type is
`unclassified`. -/
def classify (destIP : String) (ty : Nat) (peer : String) : Signal :=
  if ty = ICMPTypeTimeExceeded ∨ ty = ICMPTypeDestinationUnreachable then Signal.hop
  else if ty = ICMPTypeEchoReply then
    if peer = destIP then Signal.destination else Signal.noise
  else Signal.unclassified

/-- How far the send side of probe `i` of the pass for `ttl` gets in the
program: the outcome of its system calls, or `none` when the run ends before
in the `make` of line 211 or of line 218. -/
def sendSide (cfg : TracerouteConfig) (env : Env) (ttl : Int) (i : Nat) : Option Setup :=
  match env.setup ttl i with
  | Setup.resolveErr => some Setup.resolveErr
  | Setup.dialErr => some Setup.dialErr
  | Setup.setTTLErr => some Setup.setTTLErr
  | Setup.writeErr => if allocOk env cfg.packetSize 1 = true then some Setup.writeErr else none
  | Setup.deadlineErr =>
    if allocOk env cfg.packetSize 1 = true ∧ allocOk env 1500 1 = true then
      some Setup.deadlineErr
    else none
  | Setup.sent =>
    if allocOk env cfg.packetSize 1 = true ∧ allocOk env 1500 1 = true then some Setup.sent
    else none

/-- Index in the listener stream of the read that probe `i` makes, in a pass
for `ttl` entered after `r0` reads: every earlier probe of the pass that was
sent has consumed one read. -/
def readIx (cfg : TracerouteConfig) (env : Env) (ttl : Int) (r0 : Nat) : Nat → Nat
  | 0 => r0
  | i + 1 =>
    if sendSide cfg env ttl i = some Setup.sent then readIx cfg env ttl r0 i + 1
    else readIx cfg env ttl r0 i

/-- What the listener hands to probe `i` of the pass: the next read of the
stream when the pass has its `results` slice and the probe is sent, nothing
otherwise. -/
def replyOf (cfg : TracerouteConfig) (env : Env) (ttl : Int) (r0 : Nat) (i : Nat) :
    Option ReadResult :=
  if allocOk env cfg.numProbes 16 = true ∧ sendSide cfg env ttl i = some Setup.sent then
    some (env.listener (readIx cfg env ttl r0 i))
  else none

/-- The way in which probe `i` of the pass ends the loop of `sendProbes`, if
it does: a `make` that does not yield a slice, or a read error other than a
timeout. -/
def haltOf (cfg : TracerouteConfig) (env : Env) (ttl : Int) (r0 : Nat) (i : Nat) :
    Option RunError :=
  match sendSide cfg env ttl i with
  | none => some RunError.makeslicePanic
  | some Setup.sent =>
    if env.listener (readIx cfg env ttl r0 i) = ReadResult.ioError then some RunError.readFailed
    else none
  | some _ => none

/-- Whether the three slices of `sendProbes` can be made: `results` (line 185),
the payload (line 211) and the read buffer (line 218). -/
def slicesFit (cfg : TracerouteConfig) (env : Env) : Prop :=
  allocOk env cfg.numProbes 16 = true ∧ allocOk env cfg.packetSize 1 = true ∧
    allocOk env 1500 1 = true

/-- Sender of a classifiable response: a parsed message that is not noise. -/
def responder (cfg : TracerouteConfig) : Option ReadResult → Option String
  | some (ReadResult.packet (some ty) peer) =>
    if classify cfg.destIP ty peer = Signal.noise then none else some peer
  | _ => none

/-- Outcome of probe `i` of the pass in the words of the specification: an RTT
for a classifiable response, the missing-response marker otherwise. -/
def recorded (cfg : TracerouteConfig) (env : Env) (ttl : Int) (r0 : Nat) (i : Nat) : Entry :=
  match responder cfg (replyOf cfg env ttl r0 i) with
  | some _ => Entry.rtt (env.tDone ttl i - env.tStart ttl i)
  | none => Entry.star

/-- Sender of the last classifiable response among probes `0 .. k-1` of the
pass, `""` when there is none. -/
def lastResponder (cfg : TracerouteConfig) (env : Env) (ttl : Int) (r0 : Nat) : Nat → String
  | 0 => ""
  | i + 1 =>
    match responder cfg (replyOf cfg env ttl r0 i) with
    | some p => p
    | none => lastResponder cfg env ttl r0 i

/-- Whether none of the probes `0 .. k-1` of the pass has a classifiable response. -/
def noResponder (cfg : TracerouteConfig) (env : Env) (ttl : Int) (r0 : Nat) : Nat → Bool
  | 0 => true
  | i + 1 =>
    match responder cfg (replyOf cfg env ttl r0 i) with
    | some _ => false
    | none => noResponder cfg env ttl r0 i

/-- The probe attempts `(ttl, 0) .. (ttl, k-1)`. -/
def attempts (ttl : Int) (k : Nat) : List (Int × Nat) := (List.range k).map (fun i => (ttl, i))

/-- What the listener hands to the probe the state `s` is about to run. -/
def ProbeState.reply (cfg : TracerouteConfig) (env : Env) (ttl : Int) (s : ProbeState) :
    Option ReadResult :=
  if sendSide cfg env ttl s.probe = some Setup.sent then some (env.listener s.world.reads)
  else none

/-- The way in which the probe the state `s` is about to run ends the loop, if
it does. -/
def ProbeState.halt (cfg : TracerouteConfig) (env : Env) (ttl : Int) (s : ProbeState) :
    Option RunError :=
  match sendSide cfg env ttl s.probe with
  | none => some RunError.makeslicePanic
  | some Setup.sent =>
    if env.listener s.world.reads = ReadResult.ioError then some RunError.readFailed else none
  | some _ => none

/-- Closed form of the `results` slice after `k` probes of a pass of `n`. -/
def resultsAfter (cfg : TracerouteConfig) (env : Env) (ttl : Int) (r0 : Nat) (n k : Nat) :
    List Entry :=
  (List.range k).map (recorded cfg env ttl r0) ++ List.replicate (n - k) Entry.unset

/-- Closed form of the state of `sendProbes` after `k` probes, none of which
ended the loop. -/
def probeSpec (ttl : Int) (cfg : TracerouteConfig) (env : Env) (w : World) (k : Nat) :
    ProbeState :=
  { probe := k,
    respondingIP := lastResponder cfg env ttl w.reads k,
    results := resultsAfter cfg env ttl w.reads cfg.numProbes.toNat k,
    allFailed := noResponder cfg env ttl w.reads k,
    fatal := none,
    world := { reads := readIx cfg env ttl w.reads k, issued := w.issued ++ attempts ttl k } }

/-- State of the world when the sweep enters its pass number `j` (counted from
0), provided the earlier passes let the loop go on. -/
def worldAt (cfg : TracerouteConfig) (env : Env) : Nat → World
  | 0 => { reads := 0, issued := [] }
  | j + 1 => (sendProbes (cfg.firstTTL + j) cfg env (worldAt cfg env j)).2

/-- Pass number `j` of the sweep: the call of `sendProbes` for `firstTTL + j`. -/
def passAt (cfg : TracerouteConfig) (env : Env) (j : Nat) : Pass :=
  { ttl := cfg.firstTTL + j, ret := (sendProbes (cfg.firstTTL + j) cfg env (worldAt cfg env j)).1 }

/-- A pass after which the TTL loop goes on: no error, and a responding
address other than the destination. -/
def Continues (cfg : TracerouteConfig) (r : ProbesReturn) : Prop :=
  r.err = none ∧ r.respondingIP ≠ cfg.destIP

/-- Closed form of the sweep after `k` passes that all let the loop go on. -/
def sweepSpec (cfg : TracerouteConfig) (env : Env) (k : Nat) : SweepState :=
  { ttl := cfg.firstTTL + k, destinationReached := false, err := none,
    passes := (List.range k).map (passAt cfg env), world := worldAt cfg env k }

/-- The state in which the sweep stops at pass `m`, the first pass that does
not let the loop go on. -/
def sweepStop (cfg : TracerouteConfig) (env : Env) (m : Nat) : SweepState :=
  match (passAt cfg env m).ret.err with
  | some e =>
    { ttl := cfg.firstTTL + m, destinationReached := false, err := some e,
      passes := (List.range (m + 1)).map (passAt cfg env), world := worldAt cfg env (m + 1) }
  | none =>
    { ttl := cfg.firstTTL + (m + 1 : Nat), destinationReached := true, err := none,
      passes := (List.range (m + 1)).map (passAt cfg env), world := worldAt cfg env (m + 1) }



/-- Number of reads made before pass number `j` of a sweep in which no earlier
pass left its loop early: every probe that was sent made one. -/
def readsBefore (cfg : TracerouteConfig) (env : Env) : Nat → Nat
  | 0 => 0
  | j + 1 => readIx cfg env (cfg.firstTTL + j) (readsBefore cfg env j) cfg.numProbes.toNat

/-- What the listener hands to probe `i` of pass number `j` of the sweep, the
pass for the TTL `firstTTL + j`. -/
def replyAt (cfg : TracerouteConfig) (env : Env) (j i : Nat) : Option ReadResult :=
  replyOf cfg env (cfg.firstTTL + j) (readsBefore cfg env j) i

/-- What a pass returns when none of its probes has a classifiable response. -/
def silentReturn (cfg : TracerouteConfig) : ProbesReturn :=
  { respondingIP := "", results := List.replicate cfg.numProbes.toNat Entry.star,
    allFailed := true, err := none }

/-- Range of a Go `int` on a 64-bit platform. -/
def fitsInt (x : Int) : Prop := -2 ^ 63 ≤ x ∧ x < 2 ^ 63

/-! ## Concrete configurations and environments -/

/-- The world before the first pass. -/
def w0 : World := { reads := 0, issued := [] }

/-- The default flags of the command line, with three TTLs at most, for the
destination `10.0.0.9`. -/
def cfgDemo : TracerouteConfig :=
  { hostname := "host", packetSize := 40, firstTTL := 1, maxTTL := 3, basePort := 33434,
    waitTime := 5, numProbes := 3, destIP := "10.0.0.9", destHostname := "host" }

/-- An environment in which every send succeeds, every read times out and a
slice of up to one gibibyte can be made. -/
def envQuiet : Env :=
  { privileged := true, listenOk := true, setup := fun _ _ => Setup.sent,
    listener := fun _ => ReadResult.timeout,
    tStart := fun _ _ => 0, tArmed := fun _ _ => 1, tDone := fun _ _ => 2000000,
    memLimit := 1073741824 }

/-- Two routers answer the probes 0 and 2 of the first pass with time exceeded. -/
def envTwoRouters : Env :=
  { envQuiet with
    listener := fun k =>
      if k = 0 then ReadResult.packet (some ICMPTypeTimeExceeded) "10.0.0.1"
      else if k = 2 then ReadResult.packet (some ICMPTypeTimeExceeded) "10.0.0.2"
      else ReadResult.timeout }

/-- Four probes a pass. -/
def cfgFour : TracerouteConfig := { cfgDemo with numProbes := 4 }

/-- A pass that meets a failed dial, a timeout, an unparseable datagram and a
time exceeded message. -/
def envMixed : Env :=
  { envQuiet with
    setup := fun _ i => if i = 0 then Setup.dialErr else Setup.sent,
    listener := fun k =>
      if k = 1 then ReadResult.packet none "10.0.0.1"
      else if k = 2 then ReadResult.packet (some ICMPTypeTimeExceeded) "10.0.0.1"
      else ReadResult.timeout }

/-- Probe 0 of every pass fails to send; a router answers every read with
time exceeded. -/
def envSendFails : Env :=
  { envQuiet with
    setup := fun _ i => if i = 0 then Setup.writeErr else Setup.sent,
    listener := fun _ => ReadResult.packet (some ICMPTypeTimeExceeded) "10.0.0.1" }

/-- The write takes 20 microseconds and the answer of a router arrives 10
microseconds before the read deadline, which lies five seconds after the
moment at which it was installed. -/
def envSlowWrite : Env :=
  { envQuiet with
    listener := fun _ => ReadResult.packet (some ICMPTypeTimeExceeded) "10.0.0.1",
    tStart := fun _ _ => 0, tArmed := fun _ _ => 20000, tDone := fun _ _ => 5000010000 }

/-- A state of `sendProbes` before probe 1 of a pass of three. -/
def stateDemo : ProbeState :=
  { probe := 1, respondingIP := "10.0.0.1", results := [Entry.rtt 7, Entry.unset, Entry.unset],
    allFailed := false, fatal := none, world := { reads := 1, issued := [(1, 0)] } }

/-- An echo reply from an address other than the destination is the second read. -/
def envNoise : Env :=
  { envQuiet with
    listener := fun k =>
      if k = 1 then ReadResult.packet (some ICMPTypeEchoReply) "10.0.0.7" else ReadResult.timeout }

/-- A message of the unassigned ICMP type 42 is the second read. -/
def envOddType : Env :=
  { envQuiet with
    listener := fun k =>
      if k = 1 then ReadResult.packet (some 42) "10.0.0.7" else ReadResult.timeout }

/-- Two probes a pass. -/
def cfgTwo : TracerouteConfig := { cfgDemo with numProbes := 2 }

/-- One probe a pass. -/
def cfgOne : TracerouteConfig := { cfgDemo with numProbes := 1 }

/-- The destination answers probe 0 of the first pass with an echo reply, and
a router answers probe 1 of the same pass with time exceeded. -/
def envEchoThenRouter : Env :=
  { envQuiet with
    listener := fun k =>
      if k = 0 then ReadResult.packet (some ICMPTypeEchoReply) "10.0.0.9"
      else if k = 1 then ReadResult.packet (some ICMPTypeTimeExceeded) "10.0.0.1"
      else ReadResult.timeout }

/-- A router answers probe 0 of the first pass with time exceeded, and the
destination answers probe 1 of the same pass with an echo reply. -/
def envRouterThenEcho : Env :=
  { envQuiet with
    listener := fun k =>
      if k = 0 then ReadResult.packet (some ICMPTypeTimeExceeded) "10.0.0.1"
      else if k = 1 then ReadResult.packet (some ICMPTypeEchoReply) "10.0.0.9"
      else ReadResult.timeout }

/-- The destination answers every probe with destination unreachable, as it
does to a UDP probe that reaches a closed port. -/
def envPortUnreachable : Env :=
  { envQuiet with
    listener := fun _ => ReadResult.packet (some ICMPTypeDestinationUnreachable) "10.0.0.9" }

/-- The fifth read of the run, made by probe 1 of the pass for TTL 2, fails
with an error that is not a timeout. -/
def envBroken : Env :=
  { envQuiet with listener := fun k => if k = 4 then ReadResult.ioError else ReadResult.timeout }

/-- The largest `max_ttl` the command line accepts. -/
def cfgHuge : TracerouteConfig := { cfgDemo with maxTTL := 9223372036854775807 }

/-- A configuration whose destination address is the empty string. -/
def cfgNoDest : TracerouteConfig := { cfgDemo with destIP := "" }

/-- Sixty-four TTLs at most, as by default. -/
def cfgDefault : TracerouteConfig := { cfgDemo with maxTTL := 64 }

/-- Routers answer the passes for the TTLs 1 to 4 with time exceeded, the
destination answers the pass for TTL 5 with echo replies. -/
def envFiveHops : Env :=
  { envQuiet with
    listener := fun k =>
      if k < 12 then ReadResult.packet (some ICMPTypeTimeExceeded) "10.0.0.1"
      else ReadResult.packet (some ICMPTypeEchoReply) "10.0.0.9" }

/-- The first read fails with an error that is not a timeout, the next two
time out, and the destination answers every later read with an echo reply. -/
def envBrokenFirst : Env :=
  { envQuiet with
    listener := fun k =>
      if k = 0 then ReadResult.ioError
      else if k < 3 then ReadResult.timeout
      else ReadResult.packet (some ICMPTypeEchoReply) "10.0.0.9" }

/-- A negative payload size, as `-s -1` gives. -/
def cfgNegPacket : TracerouteConfig := { cfgDemo with packetSize := -1 }

/-- The largest `nqueries` the command line accepts. -/
def cfgManyProbes : TracerouteConfig := { cfgDemo with numProbes := 9223372036854775807 }


/-! ## The loop of `sendProbes` -/

theorem probeStep_exited (ttl : Int) (cfg : TracerouteConfig) (env : Env) (s : ProbeState)
    (h : s.fatal.isSome = true ∨ ¬ ((s.probe : Int) < cfg.numProbes)) :
    probeStep ttl cfg env s = s := by
  unfold probeStep
  rw [if_pos h]

/-- A probe that is sent had its payload and its read buffer made. -/
theorem sendSide_sent (cfg : TracerouteConfig) (env : Env) (ttl : Int) (i : Nat)
    (h : sendSide cfg env ttl i = some Setup.sent) :
    env.setup ttl i = Setup.sent ∧ allocOk env cfg.packetSize 1 = true ∧
      allocOk env 1500 1 = true := by
  unfold sendSide at h
  by_cases ha : allocOk env cfg.packetSize 1 = true ∧ allocOk env 1500 1 = true
  · cases hs : env.setup ttl i <;> simp [hs, ha, ha.1] at h
    exact ⟨rfl, ha.1, ha.2⟩
  · cases hs : env.setup ttl i <;> simp only [hs, ha, if_false] at h <;> simp at h

/-- When the payload and the read buffer can be made, the send side of a probe
gets as far as its system calls let it. -/
theorem sendSide_of_fit (cfg : TracerouteConfig) (env : Env) (ttl : Int) (i : Nat)
    (hp : allocOk env cfg.packetSize 1 = true) (hb : allocOk env 1500 1 = true) :
    sendSide cfg env ttl i = some (env.setup ttl i) := by
  unfold sendSide
  cases hs : env.setup ttl i <;> simp [hp, hb]

theorem probeStep_halt (ttl : Int) (cfg : TracerouteConfig) (env : Env) (s : ProbeState)
    (e : RunError) (hf : s.fatal = none) (hp : (s.probe : Int) < cfg.numProbes)
    (hh : s.halt cfg env ttl = some e) :
    probeStep ttl cfg env s =
      { s with fatal := some e,
               world := { reads := if e = RunError.readFailed then s.world.reads + 1
                                   else s.world.reads,
                          issued := s.world.issued ++ [(ttl, s.probe)] } } := by
  unfold ProbeState.halt sendSide at hh
  unfold probeStep
  have hg : ¬ (s.fatal.isSome = true ∨ ¬ ((s.probe : Int) < cfg.numProbes)) := by simp [hf, hp]
  rw [if_neg hg]
  cases hs : env.setup ttl s.probe <;> simp only [hs] at hh ⊢ <;>
    by_cases h1 : allocOk env cfg.packetSize 1 = true <;>
    by_cases h2 : allocOk env 1500 1 = true <;>
    simp [h1, h2, ProbeState.crash] at hh ⊢ <;>
    first
      | (subst hh; simp)
      | (obtain ⟨hl, he⟩ := hh
         subst he
         simp [hl])

theorem probeStep_cont (ttl : Int) (cfg : TracerouteConfig) (env : Env) (s : ProbeState)
    (hf : s.fatal = none) (hp : (s.probe : Int) < cfg.numProbes)
    (hh : s.halt cfg env ttl = none) :
    probeStep ttl cfg env s =
      { probe := s.probe + 1,
        respondingIP := (responder cfg (s.reply cfg env ttl)).getD s.respondingIP,
        results := s.results.set s.probe
          (match responder cfg (s.reply cfg env ttl) with
           | some _ => Entry.rtt (env.tDone ttl s.probe - env.tStart ttl s.probe)
           | none => Entry.star),
        allFailed := s.allFailed && (responder cfg (s.reply cfg env ttl)).isNone,
        fatal := none,
        world := { reads := if sendSide cfg env ttl s.probe = some Setup.sent then
                              s.world.reads + 1
                            else s.world.reads,
                   issued := s.world.issued ++ [(ttl, s.probe)] } } := by
  unfold ProbeState.halt at hh
  unfold ProbeState.reply
  unfold sendSide at hh ⊢
  unfold probeStep
  have hg : ¬ (s.fatal.isSome = true ∨ ¬ ((s.probe : Int) < cfg.numProbes)) := by simp [hf, hp]
  rw [if_neg hg]
  cases hs : env.setup ttl s.probe <;> simp only [hs] at hh ⊢ <;>
    by_cases h1 : allocOk env cfg.packetSize 1 = true <;>
    by_cases h2 : allocOk env 1500 1 = true <;>
    simp [h1, h2, responder, ProbeState.miss, hf] at hh ⊢
  cases hl : env.listener s.world.reads with
  | timeout => simp [responder, ProbeState.miss, hf]
  | ioError => exact absurd hl hh
  | packet ty peer =>
    cases ty with
    | none => simp [responder, ProbeState.miss, hf]
    | some ty =>
      simp only [responder, classify]
      by_cases h1 : ty = ICMPTypeTimeExceeded ∨ ty = ICMPTypeDestinationUnreachable
      · simp [h1, ProbeState.hit, hf]
      · by_cases h2 : ty = ICMPTypeEchoReply
        · have h1' : ¬ (ICMPTypeEchoReply = ICMPTypeTimeExceeded ∨
              ICMPTypeEchoReply = ICMPTypeDestinationUnreachable) := by decide
          subst h2
          by_cases h3 : peer = cfg.destIP
          · subst h3
            simp [h1', ProbeState.hit, hf]
          · simp [h1', h3, ProbeState.miss, hf]
        · simp [h1, h2, ProbeState.hit, hf]

theorem attempts_succ (ttl : Int) (k : Nat) :
    attempts ttl (k + 1) = attempts ttl k ++ [(ttl, k)] := by
  simp [attempts, List.range_succ]

theorem resultsAfter_length (cfg : TracerouteConfig) (env : Env) (ttl : Int) (r0 n k : Nat)
    (hk : k ≤ n) : (resultsAfter cfg env ttl r0 n k).length = n := by
  simp [resultsAfter]
  omega

theorem resultsAfter_set (cfg : TracerouteConfig) (env : Env) (ttl : Int) (r0 n k : Nat)
    (hk : k < n) :
    (resultsAfter cfg env ttl r0 n k).set k (recorded cfg env ttl r0 k) =
      resultsAfter cfg env ttl r0 n (k + 1) := by
  unfold resultsAfter
  have hlen : ((List.range k).map (recorded cfg env ttl r0)).length ≤ k := by simp
  rw [List.set_append_right _ _ hlen]
  have hn : n - k = (n - (k + 1)) + 1 := by omega
  rw [hn, List.replicate_succ]
  simp [List.range_succ]

theorem resultsAfter_full (cfg : TracerouteConfig) (env : Env) (ttl : Int) (r0 n : Nat) :
    resultsAfter cfg env ttl r0 n n = (List.range n).map (recorded cfg env ttl r0) := by
  simp [resultsAfter]

/-- In a pass that has its `results` slice, the closed form is about to run
the probe that `replyOf` speaks of. -/
theorem probeSpec_reply (ttl : Int) (cfg : TracerouteConfig) (env : Env) (w : World) (k : Nat)
    (hres : allocOk env cfg.numProbes 16 = true) :
    (probeSpec ttl cfg env w k).reply cfg env ttl = replyOf cfg env ttl w.reads k := by
  simp [ProbeState.reply, replyOf, probeSpec, hres]

theorem probeSpec_halt (ttl : Int) (cfg : TracerouteConfig) (env : Env) (w : World) (k : Nat) :
    (probeSpec ttl cfg env w k).halt cfg env ttl = haltOf cfg env ttl w.reads k := rfl

theorem lt_numProbes (cfg : TracerouteConfig) (k : Nat) (hk : k < cfg.numProbes.toNat) :
    (k : Int) < cfg.numProbes := by
  omega

/-- As long as no probe ends the loop, the loop of `sendProbes` is in its
closed form. -/
theorem probeRun_spec (ttl : Int) (cfg : TracerouteConfig) (env : Env) (w : World) (k : Nat)
    (hres : allocOk env cfg.numProbes 16 = true)
    (hk : k ≤ cfg.numProbes.toNat)
    (hgo : ∀ i, i < k → haltOf cfg env ttl w.reads i = none) :
    probeRun ttl cfg env w k = probeSpec ttl cfg env w k := by
  induction k with
  | zero => simp [probeRun, probeInit, probeSpec, lastResponder, noResponder, readIx, attempts,
      resultsAfter]
  | succ k ih =>
    have hk' : k < cfg.numProbes.toNat := hk
    have ih' := ih (Nat.le_of_lt hk') (fun i hi => hgo i (Nat.lt_succ_of_lt hi))
    have hh : (probeSpec ttl cfg env w k).halt cfg env ttl = none := by
      rw [probeSpec_halt]
      exact hgo k (Nat.lt_succ_self k)
    show probeStep ttl cfg env (probeRun ttl cfg env w k) = _
    rw [ih', probeStep_cont ttl cfg env _ rfl (lt_numProbes cfg k hk') hh,
      probeSpec_reply ttl cfg env w k hres]
    have hset := resultsAfter_set cfg env ttl w.reads cfg.numProbes.toNat k hk'
    simp only [probeSpec, attempts_succ, ← hset, recorded, lastResponder, noResponder, readIx,
      List.append_assoc]
    cases hresp : responder cfg (replyOf cfg env ttl w.reads k) <;> simp

/-- The first probe that ends the loop of `sendProbes` leaves it in the state
it found, with the reason, its own attempt and, for a read error, its read. -/
theorem probeRun_halt (ttl : Int) (cfg : TracerouteConfig) (env : Env) (w : World) (j : Nat)
    (e : RunError)
    (hres : allocOk env cfg.numProbes 16 = true)
    (hj : j < cfg.numProbes.toNat)
    (hgo : ∀ i, i < j → haltOf cfg env ttl w.reads i = none)
    (hbad : haltOf cfg env ttl w.reads j = some e) (k : Nat) (hk : j < k) :
    probeRun ttl cfg env w k =
      { probeSpec ttl cfg env w j with
        fatal := some e,
        world := { reads := if e = RunError.readFailed then readIx cfg env ttl w.reads j + 1
                            else readIx cfg env ttl w.reads j,
                   issued := w.issued ++ attempts ttl (j + 1) } } := by
  induction k with
  | zero => omega
  | succ k ih =>
    show probeStep ttl cfg env (probeRun ttl cfg env w k) = _
    rcases Nat.lt_or_ge j k with h | h
    · rw [ih h]
      exact probeStep_exited ttl cfg env _ (Or.inl rfl)
    · have hjk : j = k := by omega
      subst hjk
      rw [probeRun_spec ttl cfg env w j hres (Nat.le_of_lt hj) hgo,
        probeStep_halt ttl cfg env _ e rfl (lt_numProbes cfg j hj)
          (by rw [probeSpec_halt]; exact hbad)]
      simp [probeSpec, attempts_succ]

/-- A pass that has its `results` slice and in which no probe ends the loop
returns through line 286. -/
theorem sendProbes_ok (ttl : Int) (cfg : TracerouteConfig) (env : Env) (w : World)
    (hres : allocOk env cfg.numProbes 16 = true)
    (hgo : ∀ i, i < cfg.numProbes.toNat → haltOf cfg env ttl w.reads i = none) :
    sendProbes ttl cfg env w =
      ({ respondingIP := lastResponder cfg env ttl w.reads cfg.numProbes.toNat,
         results := (List.range cfg.numProbes.toNat).map (recorded cfg env ttl w.reads),
         allFailed := noResponder cfg env ttl w.reads cfg.numProbes.toNat,
         err := none },
       { reads := readIx cfg env ttl w.reads cfg.numProbes.toNat,
         issued := w.issued ++ attempts ttl cfg.numProbes.toNat }) := by
  unfold sendProbes
  rw [if_pos hres, probeRun_spec ttl cfg env w _ hres (Nat.le_refl _) hgo]
  simp [probeSpec, resultsAfter_full]

/-- A pass that has its `results` slice ends at the first probe that ends the
loop, with the zero values and the reason. -/
theorem sendProbes_halt (ttl : Int) (cfg : TracerouteConfig) (env : Env) (w : World) (j : Nat)
    (e : RunError)
    (hres : allocOk env cfg.numProbes 16 = true)
    (hj : j < cfg.numProbes.toNat)
    (hgo : ∀ i, i < j → haltOf cfg env ttl w.reads i = none)
    (hbad : haltOf cfg env ttl w.reads j = some e) :
    sendProbes ttl cfg env w =
      ({ respondingIP := "", results := [], allFailed := false, err := some e },
       { reads := if e = RunError.readFailed then readIx cfg env ttl w.reads j + 1
                  else readIx cfg env ttl w.reads j,
         issued := w.issued ++ attempts ttl (j + 1) }) := by
  unfold sendProbes
  rw [if_pos hres, probeRun_halt ttl cfg env w j e hres hj hgo hbad _ hj]

/-- A pass without its `results` slice ends the run before any probe. -/
theorem sendProbes_noResults (ttl : Int) (cfg : TracerouteConfig) (env : Env) (w : World)
    (hres : ¬ allocOk env cfg.numProbes 16 = true) :
    sendProbes ttl cfg env w =
      ({ respondingIP := "", results := [], allFailed := false,
         err := some RunError.makeslicePanic }, w) := by
  unfold sendProbes
  rw [if_neg hres]

/-- The first probe of a pass that ends the loop, when there is one. -/
theorem exists_first_halt (cfg : TracerouteConfig) (env : Env) (ttl : Int) (r0 n : Nat)
    (h : ¬ ∀ i, i < n → haltOf cfg env ttl r0 i = none) :
    ∃ j e, j < n ∧ (∀ i, i < j → haltOf cfg env ttl r0 i = none) ∧
      haltOf cfg env ttl r0 j = some e := by
  have hex : ∃ j, j < n ∧ haltOf cfg env ttl r0 j ≠ none := by
    by_contra hc
    apply h
    intro i hi
    by_contra hne
    exact hc ⟨i, hi, hne⟩
  classical
  obtain ⟨e, he⟩ := Option.ne_none_iff_exists'.mp (Nat.find_spec hex).2
  refine ⟨Nat.find hex, e, (Nat.find_spec hex).1, ?_, he⟩
  intro i hi
  by_contra hne
  exact Nat.find_min hex hi ⟨Nat.lt_trans hi (Nat.find_spec hex).1, hne⟩

/-- The loop of `sendProbes` has exited after `numProbes` steps: one more
evaluation of guard and body changes nothing. -/
theorem probeRun_exited (ttl : Int) (cfg : TracerouteConfig) (env : Env) (w : World)
    (hres : allocOk env cfg.numProbes 16 = true) :
    probeStep ttl cfg env (probeRun ttl cfg env w cfg.numProbes.toNat) =
      probeRun ttl cfg env w cfg.numProbes.toNat := by
  apply probeStep_exited
  by_cases h : ∀ i, i < cfg.numProbes.toNat → haltOf cfg env ttl w.reads i = none
  · right
    rw [probeRun_spec ttl cfg env w _ hres (Nat.le_refl _) h]
    simp only [probeSpec]
    omega
  · left
    obtain ⟨j, e, hj, hgo, hbad⟩ := exists_first_halt cfg env ttl w.reads _ h
    rw [probeRun_halt ttl cfg env w j e hres hj hgo hbad _ hj]
    rfl

/-! ## The TTL loop of `runTraceroute` -/

theorem sweepStep_exited (cfg : TracerouteConfig) (env : Env) (s : SweepState)
    (h : s.err.isSome = true ∨ ¬ (s.ttl < ttlBound cfg ∧ s.destinationReached = false)) :
    sweepStep cfg env s = s := by
  unfold sweepStep
  rw [if_pos h]

theorem sweepRun_exited (cfg : TracerouteConfig) (env : Env) (s : SweepState)
    (h : s.err.isSome = true ∨ ¬ (s.ttl < ttlBound cfg ∧ s.destinationReached = false))
    (k : Nat) : sweepRun cfg env s k = s := by
  induction k with
  | zero => rfl
  | succ k ih =>
    show sweepStep cfg env (sweepRun cfg env s k) = s
    rw [ih, sweepStep_exited cfg env s h]

theorem sweepRun_add (cfg : TracerouteConfig) (env : Env) (s : SweepState) (a b : Nat) :
    sweepRun cfg env s (a + b) = sweepRun cfg env (sweepRun cfg env s a) b := by
  induction b with
  | zero => rfl
  | succ b ih =>
    show sweepStep cfg env (sweepRun cfg env s (a + b)) = sweepStep cfg env _
    rw [ih]

/-- One step of the TTL loop from the closed form, while the TTL is below the
bound. -/
theorem sweepStep_spec (cfg : TracerouteConfig) (env : Env) (k : Nat)
    (hk : cfg.firstTTL + k < ttlBound cfg) :
    sweepStep cfg env (sweepSpec cfg env k) =
      match (passAt cfg env k).ret.err with
      | some e =>
        { ttl := cfg.firstTTL + k, destinationReached := false, err := some e,
          passes := (List.range (k + 1)).map (passAt cfg env), world := worldAt cfg env (k + 1) }
      | none =>
        { ttl := cfg.firstTTL + (k + 1 : Nat),
          destinationReached := decide ((passAt cfg env k).ret.respondingIP = cfg.destIP),
          err := none,
          passes := (List.range (k + 1)).map (passAt cfg env), world := worldAt cfg env (k + 1) } := by
  unfold sweepStep
  have hg : ¬ ((sweepSpec cfg env k).err.isSome = true ∨
      ¬ ((sweepSpec cfg env k).ttl < ttlBound cfg ∧
        (sweepSpec cfg env k).destinationReached = false)) := by
    simp [sweepSpec, hk]
  rw [if_neg hg]
  simp only [sweepSpec, passAt, worldAt, List.range_succ, List.map_append, List.map_cons,
    List.map_nil]
  cases he : (sendProbes (cfg.firstTTL + k) cfg env (worldAt cfg env k)).1.err with
  | some e => simp
  | none =>
    simp only [Nat.cast_add, Nat.cast_one, add_assoc]
    by_cases hd : (sendProbes (cfg.firstTTL + k) cfg env (worldAt cfg env k)).1.respondingIP
        = cfg.destIP <;> simp [hd]

theorem lt_ttlBound (cfg : TracerouteConfig) (k : Nat) (hk : k < ttlBudget cfg) :
    cfg.firstTTL + k < ttlBound cfg := by
  unfold ttlBudget at hk
  omega

/-- While every pass lets the loop go on, the sweep is in its closed form. -/
theorem sweepRun_spec (cfg : TracerouteConfig) (env : Env) (k : Nat) (hk : k ≤ ttlBudget cfg)
    (hc : ∀ j, j < k → Continues cfg (passAt cfg env j).ret) :
    sweepRun cfg env (sweepInit cfg) k = sweepSpec cfg env k := by
  induction k with
  | zero => simp [sweepRun, sweepInit, sweepSpec, worldAt]
  | succ k ih =>
    show sweepStep cfg env (sweepRun cfg env (sweepInit cfg) k) = _
    rw [ih (Nat.le_of_lt hk) (fun j hj => hc j (Nat.lt_succ_of_lt hj)),
      sweepStep_spec cfg env k (lt_ttlBound cfg k hk)]
    obtain ⟨h1, h2⟩ := hc k (Nat.lt_succ_self k)
    rw [h1]
    simp [sweepSpec, h2]

theorem sweepRun_stop (cfg : TracerouteConfig) (env : Env) (m : Nat) (hm : m < ttlBudget cfg)
    (hc : ∀ j, j < m → Continues cfg (passAt cfg env j).ret)
    (hs : ¬ Continues cfg (passAt cfg env m).ret) (k : Nat) (hk : m < k) :
    sweepRun cfg env (sweepInit cfg) k = sweepStop cfg env m := by
  have h1 : sweepRun cfg env (sweepInit cfg) (m + 1) = sweepStop cfg env m := by
    show sweepStep cfg env (sweepRun cfg env (sweepInit cfg) m) = _
    rw [sweepRun_spec cfg env m (Nat.le_of_lt hm) hc, sweepStep_spec cfg env m (lt_ttlBound cfg m hm)]
    unfold sweepStop
    cases he : (passAt cfg env m).ret.err with
    | some e => rfl
    | none =>
      have hd : (passAt cfg env m).ret.respondingIP = cfg.destIP := by
        by_contra hne
        exact hs ⟨he, hne⟩
      simp [hd]
  obtain ⟨d, rfl⟩ : ∃ d, k = (m + 1) + d := ⟨k - (m + 1), by omega⟩
  rw [sweepRun_add, h1]
  apply sweepRun_exited
  unfold sweepStop
  cases he : (passAt cfg env m).ret.err with
  | some e => left; rfl
  | none => right; simp

/-- The first pass that does not let the loop go on, when there is one. -/
theorem exists_first_stop (cfg : TracerouteConfig) (env : Env) (n : Nat)
    (h : ¬ ∀ j, j < n → Continues cfg (passAt cfg env j).ret) :
    ∃ m, m < n ∧ (∀ j, j < m → Continues cfg (passAt cfg env j).ret) ∧
      ¬ Continues cfg (passAt cfg env m).ret := by
  have hex : ∃ m, m < n ∧ ¬ Continues cfg (passAt cfg env m).ret := by
    by_contra hc
    apply h
    intro j hj
    by_contra hn
    exact hc ⟨j, hj, hn⟩
  classical
  refine ⟨Nat.find hex, (Nat.find_spec hex).1, ?_, (Nat.find_spec hex).2⟩
  intro j hj
  by_contra hn
  exact Nat.find_min hex hj ⟨Nat.lt_trans hj (Nat.find_spec hex).1, hn⟩

/-- The two ways in which the TTL loop ends: after `ttlBudget` passes that all
let it go on, or at the first pass that does not. -/
theorem sweep_final (cfg : TracerouteConfig) (env : Env) :
    ((∀ j, j < ttlBudget cfg → Continues cfg (passAt cfg env j).ret) ∧
      sweepRun cfg env (sweepInit cfg) (ttlBudget cfg) = sweepSpec cfg env (ttlBudget cfg)) ∨
    (∃ m, m < ttlBudget cfg ∧ (∀ j, j < m → Continues cfg (passAt cfg env j).ret) ∧
      ¬ Continues cfg (passAt cfg env m).ret ∧
      sweepRun cfg env (sweepInit cfg) (ttlBudget cfg) = sweepStop cfg env m) := by
  by_cases h : ∀ j, j < ttlBudget cfg → Continues cfg (passAt cfg env j).ret
  · exact Or.inl ⟨h, sweepRun_spec cfg env _ (Nat.le_refl _) h⟩
  · obtain ⟨m, hm, hc, hs⟩ := exists_first_stop cfg env _ h
    exact Or.inr ⟨m, hm, hc, hs, sweepRun_stop cfg env m hm hc hs _ hm⟩

/-- The TTL loop has exited after `ttlBudget` steps: one more evaluation of
guard and body changes nothing. -/
theorem sweepRun_done (cfg : TracerouteConfig) (env : Env) :
    sweepStep cfg env (sweepRun cfg env (sweepInit cfg) (ttlBudget cfg)) =
      sweepRun cfg env (sweepInit cfg) (ttlBudget cfg) := by
  apply sweepStep_exited
  rcases sweep_final cfg env with ⟨_, h⟩ | ⟨m, _, _, _, h⟩
  · rw [h]
    right
    simp only [sweepSpec, ttlBudget]
    omega
  · rw [h]
    unfold sweepStop
    cases he : (passAt cfg env m).ret.err with
    | some e => left; rfl
    | none => right; simp

/-! ## Consequences for one pass -/

/-- A read error other than a timeout is handed only to a probe of a pass that
has its `results` slice, its payload and its read buffer, and it ends the loop. -/
theorem haltOf_of_ioError (cfg : TracerouteConfig) (env : Env) (ttl : Int) (r0 i : Nat)
    (h : replyOf cfg env ttl r0 i = some ReadResult.ioError) :
    haltOf cfg env ttl r0 i = some RunError.readFailed ∧ slicesFit cfg env := by
  unfold replyOf at h
  split at h
  · rename_i hc
    simp only [Option.some.injEq] at h
    obtain ⟨_, hp, hb⟩ := sendSide_sent cfg env ttl i hc.2
    exact ⟨by simp [haltOf, hc.2, h], hc.1, hp, hb⟩
  · simp at h

/-- Anything the listener hands to a probe shows that the three slices of the
pass could be made. -/
theorem slicesFit_of_reply (cfg : TracerouteConfig) (env : Env) (ttl : Int) (r0 i : Nat)
    (r : ReadResult) (h : replyOf cfg env ttl r0 i = some r) : slicesFit cfg env := by
  unfold replyOf at h
  split at h
  · rename_i hc
    obtain ⟨_, hp, hb⟩ := sendSide_sent cfg env ttl i hc.2
    exact ⟨hc.1, hp, hb⟩
  · simp at h

/-- When the three slices can be made, only a read error other than a timeout
ends the loop. -/
theorem haltOf_of_fit (cfg : TracerouteConfig) (env : Env) (ttl : Int) (r0 i : Nat)
    (hfit : slicesFit cfg env)
    (h : replyOf cfg env ttl r0 i ≠ some ReadResult.ioError) :
    haltOf cfg env ttl r0 i = none := by
  obtain ⟨hres, hp, hb⟩ := hfit
  unfold haltOf
  unfold replyOf at h
  rw [sendSide_of_fit cfg env ttl i hp hb] at h ⊢
  cases hs : env.setup ttl i <;> simp [hs, hres] at h ⊢
  exact h

/-- A probe that does not end the loop was not handed a read error other than
a timeout. -/
theorem replyOf_of_go (cfg : TracerouteConfig) (env : Env) (ttl : Int) (r0 i : Nat)
    (h : haltOf cfg env ttl r0 i = none) :
    replyOf cfg env ttl r0 i ≠ some ReadResult.ioError := by
  intro hbad
  rw [(haltOf_of_ioError cfg env ttl r0 i hbad).1] at h
  simp at h

/-- A pass that returns no error had its `results` slice and no probe that
ended the loop. -/
theorem sendProbes_err_none (ttl : Int) (cfg : TracerouteConfig) (env : Env) (w : World)
    (h : (sendProbes ttl cfg env w).1.err = none) :
    allocOk env cfg.numProbes 16 = true ∧
      ∀ i, i < cfg.numProbes.toNat → haltOf cfg env ttl w.reads i = none := by
  have hres : allocOk env cfg.numProbes 16 = true := by
    by_contra hno
    rw [sendProbes_noResults ttl cfg env w hno] at h
    simp at h
  refine ⟨hres, ?_⟩
  by_contra hex
  obtain ⟨j, e, hj, hgo, hbad⟩ := exists_first_halt cfg env ttl w.reads _ hex
  rw [sendProbes_halt ttl cfg env w j e hres hj hgo hbad] at h
  simp at h

/-- A pass that returns a slot of `results` returns no error. -/
theorem sendProbes_results_of_getElem (ttl : Int) (cfg : TracerouteConfig) (env : Env) (w : World)
    (i : Nat) (e : Entry) (h : (sendProbes ttl cfg env w).1.results[i]? = some e) :
    (sendProbes ttl cfg env w).1.err = none := by
  by_contra herr
  by_cases hres : allocOk env cfg.numProbes 16 = true
  · by_cases hex : ∀ i, i < cfg.numProbes.toNat → haltOf cfg env ttl w.reads i = none
    · rw [sendProbes_ok ttl cfg env w hres hex] at herr
      simp at herr
    · obtain ⟨j, x, hj, hgo, hbad⟩ := exists_first_halt cfg env ttl w.reads _ hex
      rw [sendProbes_halt ttl cfg env w j x hres hj hgo hbad] at h
      simp at h
  · rw [sendProbes_noResults ttl cfg env w hres] at h
    simp at h

theorem lastResponder_last (cfg : TracerouteConfig) (env : Env) (ttl : Int) (r0 : Nat)
    (i : Nat) (p : String) (hp : responder cfg (replyOf cfg env ttl r0 i) = some p) (k : Nat)
    (hk : i < k)
    (hlater : ∀ j, i < j → j < k → responder cfg (replyOf cfg env ttl r0 j) = none) :
    lastResponder cfg env ttl r0 k = p := by
  induction k with
  | zero => omega
  | succ k ih =>
    rcases Nat.lt_or_ge i k with h | h
    · have hnone := hlater k h (Nat.lt_succ_self k)
      simp only [lastResponder, hnone]
      exact ih h (fun j hj hjk => hlater j hj (Nat.lt_succ_of_lt hjk))
    · have hik : i = k := by omega
      subst hik
      simp only [lastResponder, hp]

theorem lastResponder_none (cfg : TracerouteConfig) (env : Env) (ttl : Int) (r0 : Nat) (k : Nat)
    (hnone : ∀ j, j < k → responder cfg (replyOf cfg env ttl r0 j) = none) :
    lastResponder cfg env ttl r0 k = "" := by
  induction k with
  | zero => rfl
  | succ k ih =>
    simp only [lastResponder, hnone k (Nat.lt_succ_self k)]
    exact ih (fun j hj => hnone j (Nat.lt_succ_of_lt hj))

theorem noResponder_none (cfg : TracerouteConfig) (env : Env) (ttl : Int) (r0 : Nat) (k : Nat)
    (hnone : ∀ j, j < k → responder cfg (replyOf cfg env ttl r0 j) = none) :
    noResponder cfg env ttl r0 k = true := by
  induction k with
  | zero => rfl
  | succ k ih =>
    simp only [noResponder, hnone k (Nat.lt_succ_self k)]
    exact ih (fun j hj => hnone j (Nat.lt_succ_of_lt hj))

/-- The responding address of a pass is either empty or the sender of a
classifiable response of one of its probes. -/
theorem lastResponder_cases (cfg : TracerouteConfig) (env : Env) (ttl : Int) (r0 : Nat) (k : Nat) :
    lastResponder cfg env ttl r0 k = "" ∨
      ∃ i, i < k ∧
        responder cfg (replyOf cfg env ttl r0 i) = some (lastResponder cfg env ttl r0 k) := by
  induction k with
  | zero => left; rfl
  | succ k ih =>
    cases hr : responder cfg (replyOf cfg env ttl r0 k) with
    | some p =>
      right
      exact ⟨k, Nat.lt_succ_self k, by simp only [lastResponder, hr]⟩
    | none =>
      simp only [lastResponder, hr]
      rcases ih with h | ⟨i, hi, h⟩
      · left; exact h
      · right; exact ⟨i, Nat.lt_succ_of_lt hi, h⟩

theorem recorded_cases (cfg : TracerouteConfig) (env : Env) (ttl : Int) (r0 : Nat) (i : Nat) :
    recorded cfg env ttl r0 i = Entry.star ∨
      recorded cfg env ttl r0 i = Entry.rtt (env.tDone ttl i - env.tStart ttl i) := by
  unfold recorded
  cases responder cfg (replyOf cfg env ttl r0 i) <;> simp

/-- A probe attempt of a pass carries the TTL of the pass. -/
theorem mem_attempts (ttl : Int) (k : Nat) (a : Int × Nat) (h : a ∈ attempts ttl k) :
    a.1 = ttl ∧ a.2 < k := by
  unfold attempts at h
  simp only [List.mem_map, List.mem_range] at h
  obtain ⟨i, hi, rfl⟩ := h
  exact ⟨rfl, hi⟩

/-- Whatever happens in a pass, it adds to the trace only attempts at its own TTL. -/
theorem sendProbes_issued (ttl : Int) (cfg : TracerouteConfig) (env : Env) (w : World) :
    ∃ k, k ≤ cfg.numProbes.toNat ∧
      (sendProbes ttl cfg env w).2.issued = w.issued ++ attempts ttl k := by
  by_cases hres : allocOk env cfg.numProbes 16 = true
  · by_cases hex : ∀ i, i < cfg.numProbes.toNat → haltOf cfg env ttl w.reads i = none
    · exact ⟨_, Nat.le_refl _, by rw [sendProbes_ok ttl cfg env w hres hex]⟩
    · obtain ⟨j, e, hj, hgo, hbad⟩ := exists_first_halt cfg env ttl w.reads _ hex
      exact ⟨j + 1, hj, by rw [sendProbes_halt ttl cfg env w j e hres hj hgo hbad]⟩
  · exact ⟨0, Nat.zero_le _, by simp [sendProbes_noResults ttl cfg env w hres, attempts]⟩

/-- Wrap-around does nothing to a value of the 64-bit range. -/
theorem wrapInt_of_fits (x : Int) (h1 : -2 ^ 63 ≤ x) (h2 : x < 2 ^ 63) : wrapInt x = x := by
  unfold wrapInt
  omega

/-- A `results` slice that can be made has a non-negative length. -/
theorem numProbes_nonneg (cfg : TracerouteConfig) (env : Env)
    (h : allocOk env cfg.numProbes 16 = true) : 0 ≤ cfg.numProbes := by
  simp only [allocOk, decide_eq_true_eq] at h
  exact h.1

/-! ## Consequences for the sweep -/

/-- Every probe attempt made before pass number `k` has a TTL below `firstTTL + k`. -/
theorem worldAt_issued (cfg : TracerouteConfig) (env : Env) (k : Nat) (a : Int × Nat)
    (h : a ∈ (worldAt cfg env k).issued) : a.1 < cfg.firstTTL + k := by
  induction k with
  | zero => simp [worldAt] at h
  | succ k ih =>
    obtain ⟨m, _, hm⟩ := sendProbes_issued (cfg.firstTTL + k) cfg env (worldAt cfg env k)
    simp only [worldAt, hm, List.mem_append] at h
    rcases h with h | h
    · have := ih h
      push_cast
      omega
    · have := (mem_attempts _ _ _ h).1
      push_cast
      omega

theorem sweepStop_passes (cfg : TracerouteConfig) (env : Env) (m : Nat) :
    (sweepStop cfg env m).passes = (List.range (m + 1)).map (passAt cfg env) := by
  unfold sweepStop
  cases (passAt cfg env m).ret.err <;> rfl

theorem sweepStop_world (cfg : TracerouteConfig) (env : Env) (m : Nat) :
    (sweepStop cfg env m).world = worldAt cfg env (m + 1) := by
  unfold sweepStop
  cases (passAt cfg env m).ret.err <;> rfl

theorem sweepStop_err (cfg : TracerouteConfig) (env : Env) (m : Nat) :
    (sweepStop cfg env m).err = (passAt cfg env m).ret.err := by
  unfold sweepStop
  cases h : (passAt cfg env m).ret.err <;> rfl

theorem runTraceroute_started (cfg : TracerouteConfig) (env : Env)
    (hpriv : env.privileged = true) (hlisten : env.listenOk = true) :
    runTraceroute cfg env = sweepRun cfg env (sweepInit cfg) (ttlBudget cfg) := by
  simp [runTraceroute, hpriv, hlisten]

/-- The three ways in which `runTraceroute` ends: at start-up, without any
pass; after `ttlBudget` passes that all let the loop go on; at the first pass
that does not. -/
theorem runTraceroute_cases (cfg : TracerouteConfig) (env : Env) :
    ((runTraceroute cfg env).passes = [] ∧ (runTraceroute cfg env).world.issued = [] ∧
      (runTraceroute cfg env).err ≠ none) ∨
    ((∀ j, j < ttlBudget cfg → Continues cfg (passAt cfg env j).ret) ∧
      runTraceroute cfg env = sweepSpec cfg env (ttlBudget cfg)) ∨
    (∃ m, m < ttlBudget cfg ∧ (∀ j, j < m → Continues cfg (passAt cfg env j).ret) ∧
      ¬ Continues cfg (passAt cfg env m).ret ∧
      runTraceroute cfg env = sweepStop cfg env m) := by
  by_cases hpriv : env.privileged = true
  · by_cases hlisten : env.listenOk = true
    · rw [runTraceroute_started cfg env hpriv hlisten]
      exact Or.inr (sweep_final cfg env)
    · left
      simp [runTraceroute, hpriv, hlisten, sweepInit]
  · left
    simp [runTraceroute, hpriv, sweepInit]

/-- A pass of the trace that does not let the loop go on is the last pass, and
no probe is attempted at a TTL above its own. -/
theorem stopping_pass_is_last (cfg : TracerouteConfig) (env : Env) (p : Pass)
    (hp : p ∈ (runTraceroute cfg env).passes) (hs : ¬ Continues cfg p.ret) :
    (runTraceroute cfg env).passes.getLast? = some p ∧
      (runTraceroute cfg env).err = p.ret.err ∧
      ∀ a, a ∈ (runTraceroute cfg env).world.issued → a.1 ≤ p.ttl := by
  rcases runTraceroute_cases cfg env with ⟨h, _, _⟩ | ⟨hc, h⟩ | ⟨m, hm, hc, hstop, h⟩
  · rw [h] at hp
    simp at hp
  · rw [h] at hp
    simp only [sweepSpec, List.mem_map, List.mem_range] at hp
    obtain ⟨j, hj, rfl⟩ := hp
    exact absurd (hc j hj) hs
  · rw [h, sweepStop_passes] at hp
    simp only [List.mem_map, List.mem_range] at hp
    obtain ⟨j, hj, rfl⟩ := hp
    have hjm : j = m := by
      rcases Nat.lt_or_ge j m with hlt | hge
      · exact absurd (hc j hlt) hs
      · omega
    subst hjm
    rw [h, sweepStop_passes, sweepStop_world, sweepStop_err]
    refine ⟨by simp [List.range_succ], rfl, ?_⟩
    intro a ha
    have := worldAt_issued cfg env (j + 1) a ha
    simp only [passAt]
    push_cast at this
    omega

/-- A pass that has its `results` slice, in which no probe ends the loop and
no probe has a classifiable response, returns the silent result. -/
theorem sendProbes_silent (ttl : Int) (cfg : TracerouteConfig) (env : Env) (w : World)
    (hres : allocOk env cfg.numProbes 16 = true)
    (hgo : ∀ i, i < cfg.numProbes.toNat → haltOf cfg env ttl w.reads i = none)
    (hnone : ∀ i, responder cfg (replyOf cfg env ttl w.reads i) = none) :
    (sendProbes ttl cfg env w).1 = silentReturn cfg := by
  rw [sendProbes_ok ttl cfg env w hres hgo]
  have hrec : recorded cfg env ttl w.reads = fun _ => Entry.star := by
    funext i
    simp [recorded, hnone i]
  simp [silentReturn, hrec, lastResponder_none cfg env ttl w.reads _ (fun j _ => hnone j),
    noResponder_none cfg env ttl w.reads _ (fun j _ => hnone j)]

/-- When every read times out, no probe has a classifiable response. -/
theorem replyOf_timeouts (cfg : TracerouteConfig) (env : Env)
    (hto : ∀ k, env.listener k = ReadResult.timeout) (ttl : Int) (r0 i : Nat) :
    replyOf cfg env ttl r0 i ≠ some ReadResult.ioError ∧
      responder cfg (replyOf cfg env ttl r0 i) = none := by
  unfold replyOf
  split
  · simp [hto, responder]
  · simp [responder]

/-- The number of TTL values of the sweep is `maxTTL` when the loop bound does
not wrap around. -/
theorem ttlBudget_of_fits (cfg : TracerouteConfig)
    (hfit : fitsInt (cfg.firstTTL + cfg.maxTTL)) : ttlBudget cfg = cfg.maxTTL.toNat := by
  unfold ttlBudget ttlBound
  rw [wrapInt_of_fits _ hfit.1 hfit.2]
  congr 1
  omega

/-- As long as no probe of a pass ends its loop, the read counter at the start
of pass `j` is `readsBefore`. -/
theorem worldAt_reads (cfg : TracerouteConfig) (env : Env)
    (hres : allocOk env cfg.numProbes 16 = true) (j : Nat)
    (hgo : ∀ j', j' < j → ∀ i, i < cfg.numProbes.toNat →
      haltOf cfg env (cfg.firstTTL + j') (readsBefore cfg env j') i = none) :
    (worldAt cfg env j).reads = readsBefore cfg env j := by
  induction j with
  | zero => rfl
  | succ j ih =>
    have ih' := ih (fun j' hj' => hgo j' (Nat.lt_succ_of_lt hj'))
    have hgo' : ∀ i, i < cfg.numProbes.toNat →
        haltOf cfg env (cfg.firstTTL + j) (worldAt cfg env j).reads i = none := by
      intro i hi
      rw [ih']
      exact hgo j (Nat.lt_succ_self j) i hi
    simp only [worldAt, readsBefore]
    rw [sendProbes_ok _ cfg env _ hres hgo', ih']

/-- Closed form of pass number `j` when no probe of it or of an earlier pass
ends its loop. -/
theorem passAt_ok (cfg : TracerouteConfig) (env : Env)
    (hres : allocOk env cfg.numProbes 16 = true) (j : Nat)
    (hgo : ∀ j', j' ≤ j → ∀ i, i < cfg.numProbes.toNat →
      haltOf cfg env (cfg.firstTTL + j') (readsBefore cfg env j') i = none) :
    (passAt cfg env j).ret =
      { respondingIP := lastResponder cfg env (cfg.firstTTL + j) (readsBefore cfg env j)
          cfg.numProbes.toNat,
        results := (List.range cfg.numProbes.toNat).map
          (recorded cfg env (cfg.firstTTL + j) (readsBefore cfg env j)),
        allFailed := noResponder cfg env (cfg.firstTTL + j) (readsBefore cfg env j)
          cfg.numProbes.toNat,
        err := none } := by
  have hr := worldAt_reads cfg env hres j (fun j' hj' => hgo j' (Nat.le_of_lt hj'))
  have hgo' : ∀ i, i < cfg.numProbes.toNat →
      haltOf cfg env (cfg.firstTTL + j) (worldAt cfg env j).reads i = none := by
    intro i hi
    rw [hr]
    exact hgo j (Nat.le_refl j) i hi
  simp only [passAt]
  rw [sendProbes_ok _ cfg env _ hres hgo', hr]

/-- A classifiable response is a parsed message, and its sender is the address
that `responder` gives. -/
theorem responder_some (cfg : TracerouteConfig) (r : Option ReadResult) (p : String)
    (h : responder cfg r = some p) : ∃ ty, r = some (ReadResult.packet (some ty) p) := by
  cases r with
  | none => simp [responder] at h
  | some x =>
    cases x with
    | timeout => simp [responder] at h
    | ioError => simp [responder] at h
    | packet ty peer =>
      cases ty with
      | none => simp [responder] at h
      | some ty =>
        simp only [responder] at h
        split at h
        · simp at h
        · simp only [Option.some.injEq] at h
          exact ⟨ty, by rw [h]⟩

/-- An echo reply from the destination is a classifiable response. -/
theorem responder_echo_destination (cfg : TracerouteConfig) :
    responder cfg (some (ReadResult.packet (some ICMPTypeEchoReply) cfg.destIP)) =
      some cfg.destIP := by
  have hE : ¬ (ICMPTypeEchoReply = ICMPTypeTimeExceeded ∨
      ICMPTypeEchoReply = ICMPTypeDestinationUnreachable) := by decide
  simp [responder, classify, hE]

/-- The installed wait is `waitTime` seconds when that many nanoseconds fit a
64-bit `Duration`. -/
theorem waitDuration_of_fits (cfg : TracerouteConfig)
    (hfit : fitsInt (cfg.waitTime * 1000000000)) :
    waitDuration cfg = cfg.waitTime * 1000000000 :=
  wrapInt_of_fits _ hfit.1 hfit.2

/-- The stop test of line 174: once a pass of the sweep returns a responding
address equal to the destination IP, no probe is attempted at a greater TTL. -/
theorem stop_after_destination_address (cfg : TracerouteConfig) (env : Env) (p : Pass)
    (a : Int × Nat)
    (hp : p ∈ (runTraceroute cfg env).passes)
    (hdest : p.ret.respondingIP = cfg.destIP)
    (ha : a ∈ (runTraceroute cfg env).world.issued) :
    a.1 ≤ p.ttl :=
  (stopping_pass_is_last cfg env p hp (fun hc => hc.2 hdest)).2.2 a ha

/-! ## Claims about one pass (`sendProbes`) -/

/-- C1, as stated, fails: in a pass of three probes in which probe 0 and
probe 2 both receive a time exceeded message, from `10.0.0.1` and from
`10.0.0.2`, the pass returns without error and its responding address is the
sender of probe 2, not the sender of probe 0. -/
theorem first_wins_refuted :
    responder cfgDemo (replyOf cfgDemo envTwoRouters 1 w0.reads 0) = some "10.0.0.1" ∧
    responder cfgDemo (replyOf cfgDemo envTwoRouters 1 w0.reads 2) = some "10.0.0.2" ∧
    (sendProbes 1 cfgDemo envTwoRouters w0).1.err = none ∧
    (sendProbes 1 cfgDemo envTwoRouters w0).1.respondingIP = "10.0.0.2" ∧
    (sendProbes 1 cfgDemo envTwoRouters w0).1.respondingIP ≠ "10.0.0.1" := by
  decide

/-- C1, amended (last wins): when a pass of `sendProbes` returns without error,
and probe `i` received a classifiable response from `peer`, and no later probe
of the pass received a classifiable response, then the responding address
returned for the TTL is `peer`; every classifiable response overwrites the
address recorded before it. -/
theorem sendProbes_last_response_wins (ttl : Int) (cfg : TracerouteConfig) (env : Env)
    (w : World) (i : Nat) (peer : String)
    (hok : (sendProbes ttl cfg env w).1.err = none)
    (hi : (i : Int) < cfg.numProbes)
    (hresp : responder cfg (replyOf cfg env ttl w.reads i) = some peer)
    (hlater : ∀ j, i < j → (j : Int) < cfg.numProbes →
      responder cfg (replyOf cfg env ttl w.reads j) = none) :
    (sendProbes ttl cfg env w).1.respondingIP = peer := by
  obtain ⟨hres, hgo⟩ := sendProbes_err_none ttl cfg env w hok
  rw [sendProbes_ok ttl cfg env w hres hgo]
  apply lastResponder_last cfg env ttl w.reads i peer hresp
  · omega
  · intro j hij hj
    exact hlater j hij (by omega)

/-- Witness for C1 amended: the pass with the two routers returns the sender of
probe 2. -/
theorem sendProbes_last_response_wins_witness :
    responder cfgDemo (replyOf cfgDemo envTwoRouters 1 w0.reads 2) = some "10.0.0.2" ∧
    (sendProbes 1 cfgDemo envTwoRouters w0).1.respondingIP = "10.0.0.2" :=
  ⟨by decide,
   sendProbes_last_response_wins 1 cfgDemo envTwoRouters w0 2 "10.0.0.2" (by decide) (by decide)
     (by decide)
     (fun j h1 h2 => by
       have h3 : cfgDemo.numProbes = 3 := rfl
       omega)⟩

/-- C4: for a non-negative `numProbes`, whenever `sendProbes` returns without
error its `results` has exactly `numProbes` entries, and entry `i` is the
outcome of probe `i`, which is set: the marker `"*"` or the RTT of probe `i`. -/
theorem sendProbes_results_complete (ttl : Int) (cfg : TracerouteConfig) (env : Env) (w : World)
    (hn : 0 ≤ cfg.numProbes) (hok : (sendProbes ttl cfg env w).1.err = none) :
    ((sendProbes ttl cfg env w).1.results.length : Int) = cfg.numProbes ∧
    ∀ i : Nat, (i : Int) < cfg.numProbes →
      (sendProbes ttl cfg env w).1.results[i]? = some (recorded cfg env ttl w.reads i) ∧
      (recorded cfg env ttl w.reads i = Entry.star ∨
        recorded cfg env ttl w.reads i = Entry.rtt (env.tDone ttl i - env.tStart ttl i)) := by
  obtain ⟨hres, hgo⟩ := sendProbes_err_none ttl cfg env w hok
  rw [sendProbes_ok ttl cfg env w hres hgo]
  refine ⟨?_, ?_⟩
  · simp only [List.length_map, List.length_range]
    omega
  · intro i hi
    have hi' : i < cfg.numProbes.toNat := by omega
    refine ⟨?_, recorded_cases cfg env ttl w.reads i⟩
    simp [List.getElem?_map, List.getElem?_range, hi']

/-- Witness for C4: a pass of four probes that meets a failed dial, a timeout,
an unparseable datagram and a time exceeded message. -/
theorem sendProbes_results_complete_witness :
    (sendProbes 1 cfgFour envMixed w0).1.results =
      [Entry.star, Entry.star, Entry.star, Entry.rtt 2000000] ∧
    ((sendProbes 1 cfgFour envMixed w0).1.results.length : Int) = cfgFour.numProbes ∧
    ∀ i : Nat, (i : Int) < cfgFour.numProbes →
      (sendProbes 1 cfgFour envMixed w0).1.results[i]? =
        some (recorded cfgFour envMixed 1 w0.reads i) ∧
      (recorded cfgFour envMixed 1 w0.reads i = Entry.star ∨
        recorded cfgFour envMixed 1 w0.reads i =
          Entry.rtt (envMixed.tDone 1 i - envMixed.tStart 1 i)) :=
  ⟨by decide, sendProbes_results_complete 1 cfgFour envMixed w0 (by decide) (by decide)⟩

/-- C6: when the read of a probe yields a parsed ICMP message of type `ty`
from `peer`, the loop body of `sendProbes` records a success (an RTT entry in
the slot of the probe, `respondingIP` set to `peer`, `allFailed` cleared) if
and only if it is not the case that `ty` is echo reply and `peer` differs from
the destination; in the remaining case it records the marker `"*"` and leaves
`respondingIP` and `allFailed` as they were.  Any type other than echo reply,
time exceeded and destination unreachable is recorded as a success. -/
theorem probeStep_classifies (ttl : Int) (cfg : TracerouteConfig) (env : Env) (s : ProbeState)
    (ty : Nat) (peer : String)
    (hf : s.fatal = none) (hp : (s.probe : Int) < cfg.numProbes)
    (hlen : s.probe < s.results.length)
    (hsent : sendSide cfg env ttl s.probe = some Setup.sent)
    (hread : env.listener s.world.reads = ReadResult.packet (some ty) peer) :
    (((∃ d, (probeStep ttl cfg env s).results[s.probe]? = some (Entry.rtt d)) ↔
        ¬ (ty = ICMPTypeEchoReply ∧ peer ≠ cfg.destIP))) ∧
    (¬ (ty = ICMPTypeEchoReply ∧ peer ≠ cfg.destIP) →
      (probeStep ttl cfg env s).results[s.probe]? =
          some (Entry.rtt (env.tDone ttl s.probe - env.tStart ttl s.probe)) ∧
        (probeStep ttl cfg env s).respondingIP = peer ∧
        (probeStep ttl cfg env s).allFailed = false) ∧
    ((ty = ICMPTypeEchoReply ∧ peer ≠ cfg.destIP) →
      (probeStep ttl cfg env s).results[s.probe]? = some Entry.star ∧
        (probeStep ttl cfg env s).respondingIP = s.respondingIP ∧
        (probeStep ttl cfg env s).allFailed = s.allFailed) ∧
    ((ty ≠ ICMPTypeEchoReply ∧ ty ≠ ICMPTypeTimeExceeded ∧
        ty ≠ ICMPTypeDestinationUnreachable) →
      (probeStep ttl cfg env s).results[s.probe]? =
          some (Entry.rtt (env.tDone ttl s.probe - env.tStart ttl s.probe)) ∧
        (probeStep ttl cfg env s).respondingIP = peer ∧
        (probeStep ttl cfg env s).allFailed = false) := by
  have hg : ¬ (s.fatal.isSome = true ∨ ¬ ((s.probe : Int) < cfg.numProbes)) := by
    simp [hf, hp]
  have hE : ¬ (ICMPTypeEchoReply = ICMPTypeTimeExceeded ∨
      ICMPTypeEchoReply = ICMPTypeDestinationUnreachable) := by decide
  obtain ⟨hsys, hpay, hbuf⟩ := sendSide_sent cfg env ttl s.probe hsent
  by_cases hnoise : ty = ICMPTypeEchoReply ∧ peer ≠ cfg.destIP
  · obtain ⟨hty, hpeer⟩ := hnoise
    subst hty
    have hstep : probeStep ttl cfg env s =
        s.miss { reads := s.world.reads + 1, issued := s.world.issued ++ [(ttl, s.probe)] } := by
      unfold probeStep
      rw [if_neg hg]
      simp [hsys, hpay, hbuf, hread, hE, hpeer]
    rw [hstep]
    simp [ProbeState.miss, hlen, hpeer]
  · have hstep : probeStep ttl cfg env s =
        s.hit { reads := s.world.reads + 1, issued := s.world.issued ++ [(ttl, s.probe)] }
          (env.tDone ttl s.probe - env.tStart ttl s.probe) peer := by
      unfold probeStep
      rw [if_neg hg]
      simp only [hsys, hpay, hbuf, hread, if_true]
      by_cases h1 : ty = ICMPTypeTimeExceeded ∨ ty = ICMPTypeDestinationUnreachable
      · simp [h1]
      · by_cases h2 : ty = ICMPTypeEchoReply
        · have h3 : peer = cfg.destIP := by
            by_contra hne
            exact hnoise ⟨h2, hne⟩
          simp [h1, h2, h3, hE]
        · simp [h1, h2]
    rw [hstep]
    simp [ProbeState.hit, hlen, hnoise]

/-- Witness for C6: an echo reply from `10.0.0.7`, which is not the
destination, is recorded as `"*"` and changes neither the responding address
nor `allFailed`; a message of type 42 from the same sender is a success. -/
theorem probeStep_classifies_witness :
    ((probeStep 1 cfgDemo envNoise stateDemo).results[1]? = some Entry.star ∧
      (probeStep 1 cfgDemo envNoise stateDemo).respondingIP = "10.0.0.1" ∧
      (probeStep 1 cfgDemo envNoise stateDemo).allFailed = false) ∧
    ((probeStep 1 cfgDemo envOddType stateDemo).results[1]? = some (Entry.rtt 2000000) ∧
      (probeStep 1 cfgDemo envOddType stateDemo).respondingIP = "10.0.0.7" ∧
      (probeStep 1 cfgDemo envOddType stateDemo).allFailed = false) :=
  ⟨(probeStep_classifies 1 cfgDemo envNoise stateDemo ICMPTypeEchoReply "10.0.0.7"
      (by decide) (by decide) (by decide) (by decide) (by decide)).2.2.1 (by decide),
   (probeStep_classifies 1 cfgDemo envOddType stateDemo 42 "10.0.0.7"
      (by decide) (by decide) (by decide) (by decide) (by decide)).2.2.2 (by decide)⟩

/-- C9: a probe whose address resolution, dial, TTL option or write fails is
recorded as `"*"`, makes no read on the listener (the read counter is
unchanged), and the loop goes on with the next probe.  Scenario: in a pass of
three probes where probe 0 fails to send and the next two reads are hop
signals from the same router, the outcomes are `"*"`, RTT, RTT, the two reads
are consumed by the probes 1 and 2, and the responding address is the router. -/
theorem send_failure_skips_read (ttl : Int) (cfg : TracerouteConfig) (env : Env) (w : World)
    (router : String) (ty1 ty2 : Nat)
    (hn : cfg.numProbes = 3)
    (h0 : sendSide cfg env ttl 0 = some Setup.resolveErr ∨
      sendSide cfg env ttl 0 = some Setup.dialErr ∨
      sendSide cfg env ttl 0 = some Setup.setTTLErr ∨
      sendSide cfg env ttl 0 = some Setup.writeErr)
    (h1 : sendSide cfg env ttl 1 = some Setup.sent)
    (h2 : sendSide cfg env ttl 2 = some Setup.sent)
    (hr1 : env.listener w.reads = ReadResult.packet (some ty1) router)
    (hr2 : env.listener (w.reads + 1) = ReadResult.packet (some ty2) router)
    (hty1 : ty1 = ICMPTypeTimeExceeded ∨ ty1 = ICMPTypeDestinationUnreachable)
    (hty2 : ty2 = ICMPTypeTimeExceeded ∨ ty2 = ICMPTypeDestinationUnreachable) :
    sendProbes ttl cfg env w =
      ({ respondingIP := router,
         results := [Entry.star, Entry.rtt (env.tDone ttl 1 - env.tStart ttl 1),
                     Entry.rtt (env.tDone ttl 2 - env.tStart ttl 2)],
         allFailed := false, err := none },
       { reads := w.reads + 2, issued := w.issued ++ [(ttl, 0), (ttl, 1), (ttl, 2)] }) ∧
    ∀ (t : Int) (c : TracerouteConfig) (e : Env) (s : ProbeState),
      s.fatal = none → (s.probe : Int) < c.numProbes →
      (sendSide c e t s.probe = some Setup.resolveErr ∨
        sendSide c e t s.probe = some Setup.dialErr ∨
        sendSide c e t s.probe = some Setup.setTTLErr ∨
        sendSide c e t s.probe = some Setup.writeErr) →
      probeStep t c e s =
        { s with results := s.results.set s.probe Entry.star, probe := s.probe + 1,
                 world := { reads := s.world.reads,
                            issued := s.world.issued ++ [(t, s.probe)] } } := by
  constructor
  · have hnn : cfg.numProbes.toNat = 3 := by omega
    obtain ⟨_, hpay, hbuf⟩ := sendSide_sent cfg env ttl 1 h1
    have hres : allocOk env cfg.numProbes 16 = true := by
      simp only [allocOk, decide_eq_true_eq, maxAlloc] at hbuf ⊢
      rw [hn]
      omega
    have hfit : slicesFit cfg env := ⟨hres, hpay, hbuf⟩
    have hns : sendSide cfg env ttl 0 ≠ some Setup.sent := by
      rcases h0 with h | h | h | h <;> simp [h]
    have hq0 : replyOf cfg env ttl w.reads 0 = none := by simp [replyOf, hns]
    have hq1 : replyOf cfg env ttl w.reads 1 = some (ReadResult.packet (some ty1) router) := by
      simp [replyOf, readIx, hns, h1, hr1, hres]
    have hq2 : replyOf cfg env ttl w.reads 2 = some (ReadResult.packet (some ty2) router) := by
      simp [replyOf, readIx, hns, h1, h2, hr2, hres]
    have hc1 : responder cfg (some (ReadResult.packet (some ty1) router)) = some router := by
      simp [responder, classify, hty1]
    have hc2 : responder cfg (some (ReadResult.packet (some ty2) router)) = some router := by
      simp [responder, classify, hty2]
    have hgo : ∀ i, i < cfg.numProbes.toNat → haltOf cfg env ttl w.reads i = none := by
      intro i hi
      apply haltOf_of_fit cfg env ttl w.reads i hfit
      rw [hnn] at hi
      interval_cases i <;> simp [hq0, hq1, hq2]
    rw [sendProbes_ok ttl cfg env w hres hgo, hnn]
    have hc0 : responder cfg none = none := rfl
    simp [List.range_succ, recorded, lastResponder, noResponder, readIx, attempts, hq0, hq1, hq2,
      hc0, hc1, hc2, hns, h1, h2]
  · intro t c e s hf hp hfail
    have hg : ¬ (s.fatal.isSome = true ∨ ¬ ((s.probe : Int) < c.numProbes)) := by
      simp [hf, hp]
    have hh : s.halt c e t = none := by
      unfold ProbeState.halt
      rcases hfail with h | h | h | h <;> simp [h]
    have hr : s.reply c e t = none := by
      unfold ProbeState.reply
      rcases hfail with h | h | h | h <;> simp [h]
    have hns : sendSide c e t s.probe ≠ some Setup.sent := by
      rcases hfail with h | h | h | h <;> simp [h]
    rw [probeStep_cont t c e s hf hp hh, hr]
    simp [responder, hns, hf]

/-- Witness for C9: probe 0 fails on the write, the router `10.0.0.1` answers
the probes 1 and 2. -/
theorem send_failure_skips_read_witness :
    sendProbes 3 cfgDemo envSendFails w0 =
      ({ respondingIP := "10.0.0.1",
         results := [Entry.star, Entry.rtt 2000000, Entry.rtt 2000000],
         allFailed := false, err := none },
       { reads := 2, issued := [(3, 0), (3, 1), (3, 2)] }) :=
  (send_failure_skips_read 3 cfgDemo envSendFails w0 "10.0.0.1" ICMPTypeTimeExceeded
    ICMPTypeTimeExceeded rfl (by decide) (by decide) (by decide) (by decide) (by decide)
    (by decide) (by decide)).1

/-- C10, as stated, fails: with `waitTime = 5`, a write that takes 20
microseconds and a response that arrives 10 microseconds before the read
deadline, the readings of the clock are monotone, the read returns before the
deadline, the probe is recorded as a success, and its RTT is 5000010000 ns,
more than the five seconds of the wait timeout. -/
theorem rtt_within_wait_refuted :
    (envSlowWrite.tStart 1 0 ≤ envSlowWrite.tArmed 1 0 ∧
      envSlowWrite.tArmed 1 0 ≤ envSlowWrite.tDone 1 0) ∧
    envSlowWrite.tDone 1 0 < envSlowWrite.tArmed 1 0 + waitDuration cfgDemo ∧
    waitDuration cfgDemo = cfgDemo.waitTime * 1000000000 ∧
    (sendProbes 1 cfgDemo envSlowWrite w0).1.results[0]? = some (Entry.rtt 5000010000) ∧
    cfgDemo.waitTime * 1000000000 < 5000010000 := by
  decide

/-- C10, amended: for a probe recorded as a success by `sendProbes`, with
monotone clock readings and a read that returns no later than the installed
deadline, the RTT is the reading at the return of the read minus the start
timestamp, it is at least 0, and it is at most the wait duration plus the time
that passed between the start timestamp (taken before the write) and the
installation of the deadline (after the write). -/
theorem rtt_bound (ttl : Int) (cfg : TracerouteConfig) (env : Env) (w : World) (i : Nat) (d : Int)
    (hrec : (sendProbes ttl cfg env w).1.results[i]? = some (Entry.rtt d))
    (hmono1 : env.tStart ttl i ≤ env.tArmed ttl i)
    (hmono2 : env.tArmed ttl i ≤ env.tDone ttl i)
    (hdeadline : env.tDone ttl i ≤ env.tArmed ttl i + waitDuration cfg) :
    d = env.tDone ttl i - env.tStart ttl i ∧ 0 ≤ d ∧
      d ≤ waitDuration cfg + (env.tArmed ttl i - env.tStart ttl i) := by
  have hok := sendProbes_results_of_getElem ttl cfg env w i _ hrec
  obtain ⟨hres, hgo⟩ := sendProbes_err_none ttl cfg env w hok
  rw [sendProbes_ok ttl cfg env w hres hgo] at hrec
  simp only [List.getElem?_map, List.getElem?_range] at hrec
  have hd : d = env.tDone ttl i - env.tStart ttl i := by
    by_cases hi : i < cfg.numProbes.toNat
    · simp only [List.getElem?_range hi, Option.map_some', Option.some.injEq] at hrec
      rcases recorded_cases cfg env ttl w.reads i with h | h
      · rw [h] at hrec
        exact absurd hrec (by simp)
      · rw [h] at hrec
        exact (Entry.rtt.inj hrec).symm
    · have hnone : (List.range cfg.numProbes.toNat)[i]? = none := by
        simp [List.getElem?_eq_none_iff, not_lt.mp hi]
      rw [hnone] at hrec
      simp at hrec
  subst hd
  refine ⟨rfl, ?_, ?_⟩ <;> omega

/-- Witness for C10 amended: the probe with the slow write has an RTT of
5000010000 ns, within the bound 5000000000 + 20000. -/
theorem rtt_bound_witness :
    (sendProbes 1 cfgDemo envSlowWrite w0).1.results[0]? = some (Entry.rtt 5000010000) ∧
    ((5000010000 : Int) = envSlowWrite.tDone 1 0 - envSlowWrite.tStart 1 0 ∧
      (0 : Int) ≤ 5000010000 ∧
      (5000010000 : Int) ≤
        waitDuration cfgDemo + (envSlowWrite.tArmed 1 0 - envSlowWrite.tStart 1 0)) :=
  ⟨by decide,
   rtt_bound 1 cfgDemo envSlowWrite w0 0 5000010000 (by decide) (by decide) (by decide)
     (by decide)⟩

/-! ## Claims about the sweep (`runTraceroute`) -/

/-- C2 is not what the code does: with two probes a pass, probe 0 of the pass
for TTL 1 receives an echo reply from the destination (a destination signal),
probe 1 of the same pass receives time exceeded from a router and overwrites
the responding address, the stop test of line 174 then sees the router, and
the run goes on to attempt probes at the TTLs 2 and 3. -/
theorem destination_signal_then_router_goes_on :
    replyOf cfgTwo envEchoThenRouter 1 0 0 =
      some (ReadResult.packet (some ICMPTypeEchoReply) cfgTwo.destIP) ∧
    classify cfgTwo.destIP ICMPTypeEchoReply cfgTwo.destIP = Signal.destination ∧
    replyOf cfgTwo envEchoThenRouter 1 0 1 =
      some (ReadResult.packet (some ICMPTypeTimeExceeded) "10.0.0.1") ∧
    (sendProbes 1 cfgTwo envEchoThenRouter w0).1.respondingIP = "10.0.0.1" ∧
    (runTraceroute cfgTwo envEchoThenRouter).err = none ∧
    (runTraceroute cfgTwo envEchoThenRouter).destinationReached = false ∧
    (runTraceroute cfgTwo envEchoThenRouter).world.issued =
      [(1, 0), (1, 1), (2, 0), (2, 1), (3, 0), (3, 1)] := by
  decide

/-- C3, as stated, fails: with one probe a pass and a budget of three TTLs, the
only probe of the pass for TTL 1 receives destination unreachable (a hop
signal, not an echo reply) from the destination IP; the sweep ends without
error after that one pass, before the bound `firstTTL+maxTTL`, with the
destination-reached flag set. -/
theorem flag_only_by_echo_refuted :
    cfgOne.numProbes = 1 ∧
    replyOf cfgOne envPortUnreachable 1 0 0 =
      some (ReadResult.packet (some ICMPTypeDestinationUnreachable) cfgOne.destIP) ∧
    classify cfgOne.destIP ICMPTypeDestinationUnreachable cfgOne.destIP = Signal.hop ∧
    (runTraceroute cfgOne envPortUnreachable).err = none ∧
    (runTraceroute cfgOne envPortUnreachable).passes.map Pass.ttl = [1] ∧
    (runTraceroute cfgOne envPortUnreachable).ttl < ttlBound cfgOne ∧
    (runTraceroute cfgOne envPortUnreachable).destinationReached = true := by
  decide

/-- C3, amended: the destination-reached flag is set by the responding address
of a pass, whatever the type of the response.  If the sweep ends without error
with the TTL still below the bound `firstTTL+maxTTL`, then the flag is set and
the pass for the last probed TTL returned, without error, a responding address
equal to the destination IP. -/
theorem early_end_means_destination_address (cfg : TracerouteConfig) (env : Env)
    (herr : (runTraceroute cfg env).err = none)
    (hlt : (runTraceroute cfg env).ttl < ttlBound cfg) :
    (runTraceroute cfg env).destinationReached = true ∧
    ∃ p, (runTraceroute cfg env).passes.getLast? = some p ∧ p.ret.err = none ∧
      p.ret.respondingIP = cfg.destIP ∧ p.ttl + 1 = (runTraceroute cfg env).ttl := by
  rcases runTraceroute_cases cfg env with ⟨_, _, h⟩ | ⟨_, h⟩ | ⟨m, hm, hc, hstop, h⟩
  · exact absurd herr h
  · rw [h] at hlt
    simp only [sweepSpec, ttlBudget] at hlt
    omega
  · have he : (passAt cfg env m).ret.err = none := by
      rw [h, sweepStop_err] at herr
      exact herr
    have hd : (passAt cfg env m).ret.respondingIP = cfg.destIP := by
      by_contra hne
      exact hstop ⟨he, hne⟩
    rw [h]
    refine ⟨?_, passAt cfg env m, ?_, he, hd, ?_⟩
    · simp [sweepStop, he]
    · simp [sweepStop_passes, List.range_succ]
    · have hstopTTL : (sweepStop cfg env m).ttl = cfg.firstTTL + (m + 1 : Nat) := by
        unfold sweepStop
        rw [he]
      rw [hstopTTL]
      simp only [passAt]
      push_cast
      omega

/-- Witness for C3 amended: the sweep that ends at TTL 1 on a destination
unreachable message from the destination. -/
theorem early_end_means_destination_address_witness :
    (runTraceroute cfgOne envPortUnreachable).ttl < ttlBound cfgOne ∧
    ((runTraceroute cfgOne envPortUnreachable).destinationReached = true ∧
      ∃ p, (runTraceroute cfgOne envPortUnreachable).passes.getLast? = some p ∧
        p.ret.err = none ∧ p.ret.respondingIP = cfgOne.destIP ∧
        p.ttl + 1 = (runTraceroute cfgOne envPortUnreachable).ttl) :=
  ⟨by decide,
   early_end_means_destination_address cfgOne envPortUnreachable (by decide) (by decide)⟩

/-- C5: a read error that is not a timeout ends the pass at once: `sendProbes`
returns the error with the zero values, having attempted the probes up to the
failing one only and made one read for it.  `runTraceroute` returns the error
of a failed pass, that pass is its last, and no probe is attempted at a greater
TTL.  A pass in which no read fails with such an error (timeouts included)
does not return the read error, and returns no error at all when its slices
can be made. -/
theorem read_error_is_fatal (ttl : Int) (cfg : TracerouteConfig) (env : Env) (w : World) (j : Nat)
    (hj : (j : Int) < cfg.numProbes)
    (hio : ∀ i, i < j → replyOf cfg env ttl w.reads i ≠ some ReadResult.ioError)
    (hbad : replyOf cfg env ttl w.reads j = some ReadResult.ioError) :
    sendProbes ttl cfg env w =
      ({ respondingIP := "", results := [], allFailed := false, err := some RunError.readFailed },
       { reads := readIx cfg env ttl w.reads j + 1,
         issued := w.issued ++ attempts ttl (j + 1) }) ∧
    (∀ (c : TracerouteConfig) (e : Env) (p : Pass) (x : RunError),
      p ∈ (runTraceroute c e).passes → p.ret.err = some x →
      (runTraceroute c e).err = some x ∧ (runTraceroute c e).passes.getLast? = some p ∧
        ∀ a, a ∈ (runTraceroute c e).world.issued → a.1 ≤ p.ttl) ∧
    (∀ (t : Int) (c : TracerouteConfig) (e : Env) (v : World),
      (∀ i : Nat, (i : Int) < c.numProbes → replyOf c e t v.reads i ≠ some ReadResult.ioError) →
      (sendProbes t c e v).1.err ≠ some RunError.readFailed ∧
        (slicesFit c e → (sendProbes t c e v).1.err = none)) := by
  refine ⟨?_, ?_, ?_⟩
  · obtain ⟨hhalt, hfit⟩ := haltOf_of_ioError cfg env ttl w.reads j hbad
    have h := sendProbes_halt ttl cfg env w j RunError.readFailed hfit.1 (by omega)
      (fun i hi => haltOf_of_fit cfg env ttl w.reads i hfit (hio i hi)) hhalt
    simpa using h
  · intro c e p x hp hx
    have hs : ¬ Continues c p.ret := by
      intro hc
      rw [hc.1] at hx
      exact absurd hx (by simp)
    obtain ⟨h1, h2, h3⟩ := stopping_pass_is_last c e p hp hs
    exact ⟨by rw [h2, hx], h1, h3⟩
  · intro t c e v hno
    constructor
    · intro herr
      by_cases hres : allocOk e c.numProbes 16 = true
      · by_cases hex : ∀ i, i < c.numProbes.toNat → haltOf c e t v.reads i = none
        · rw [sendProbes_ok t c e v hres hex] at herr
          simp at herr
        · obtain ⟨k, x, hk, hgo, hx⟩ := exists_first_halt c e t v.reads _ hex
          rw [sendProbes_halt t c e v k x hres hk hgo hx] at herr
          simp only [Option.some.injEq] at herr
          subst herr
          apply hno k (by omega)
          unfold haltOf at hx
          unfold replyOf
          cases hs : sendSide c e t k with
          | none => simp [hs] at hx
          | some st =>
            cases st <;> simp [hs] at hx
            simp [hres, hx]
      · rw [sendProbes_noResults t c e v hres] at herr
        simp at herr
    · intro hfit
      rw [sendProbes_ok t c e v hfit.1
        (fun i hi => haltOf_of_fit c e t v.reads i hfit (hno i (by omega)))]

/-- Witness for C5: the read of probe 1 of the pass for TTL 2 fails; the pass
returns the error after the attempts `(2, 0)` and `(2, 1)`, and the run ends
with that error without an attempt at TTL 3. -/
theorem read_error_is_fatal_witness :
    sendProbes 2 cfgDemo envBroken { reads := 3, issued := [(1, 0), (1, 1), (1, 2)] } =
      ({ respondingIP := "", results := [], allFailed := false, err := some RunError.readFailed },
       { reads := 5, issued := [(1, 0), (1, 1), (1, 2), (2, 0), (2, 1)] }) ∧
    (runTraceroute cfgDemo envBroken).err = some RunError.readFailed ∧
    (runTraceroute cfgDemo envBroken).world.issued = [(1, 0), (1, 1), (1, 2), (2, 0), (2, 1)] :=
  ⟨(read_error_is_fatal 2 cfgDemo envBroken { reads := 3, issued := [(1, 0), (1, 1), (1, 2)] } 1
      (by decide) (by decide) (by decide)).1,
   by decide, by decide⟩

/-- C7, as stated, fails on four configurations with `maxTTL >= 0` and
`numProbes >= 0` in an environment where every read times out.  With
`maxTTL = 9223372036854775807` and `firstTTL = 1` the bound
`firstTTL+maxTTL` wraps around to a negative number and no pass is run.  With
an empty `destIP` the empty responding address of the first pass equals the
destination, so the sweep stops after one pass of the three, with the
destination-reached flag set.  With `packetSize = -1` the run ends in the
`make` of line 211 at the first probe, and with
`numProbes = 9223372036854775807` in the `make` of line 185. -/
theorem all_timeouts_refuted :
    envQuiet.listener = (fun _ => ReadResult.timeout) ∧
    (0 ≤ cfgHuge.maxTTL ∧ 0 ≤ cfgHuge.numProbes ∧ cfgHuge.maxTTL.toNat = 9223372036854775807 ∧
      ttlBound cfgHuge = -9223372036854775808 ∧
      (runTraceroute cfgHuge envQuiet).passes = []) ∧
    (0 ≤ cfgNoDest.maxTTL ∧ 0 ≤ cfgNoDest.numProbes ∧ cfgNoDest.maxTTL.toNat = 3 ∧
      (runTraceroute cfgNoDest envQuiet).passes.map Pass.ttl = [1] ∧
      (runTraceroute cfgNoDest envQuiet).destinationReached = true) ∧
    (0 ≤ cfgNegPacket.maxTTL ∧ 0 ≤ cfgNegPacket.numProbes ∧ cfgNegPacket.maxTTL.toNat = 3 ∧
      (runTraceroute cfgNegPacket envQuiet).err = some RunError.makeslicePanic ∧
      (runTraceroute cfgNegPacket envQuiet).world.issued = [(1, 0)]) ∧
    (0 ≤ cfgManyProbes.maxTTL ∧ 0 ≤ cfgManyProbes.numProbes ∧ cfgManyProbes.maxTTL.toNat = 3 ∧
      (runTraceroute cfgManyProbes envQuiet).err = some RunError.makeslicePanic ∧
      (runTraceroute cfgManyProbes envQuiet).world.issued = []) := by
  refine ⟨rfl, ?_, ?_, ?_, ?_⟩ <;> decide

/-- C7, amended: for every configuration with `maxTTL >= 0`, a non-empty
`destIP`, a bound `firstTTL+maxTTL` within the range of `int`, and a
`numProbes` and a `packetSize` for which the slices of the lines 185, 211 and
218 can be made (`numProbes >= 0` and `packetSize >= 0` among the conditions),
if the listener is acquired and every read times out,
`runTraceroute` runs exactly `maxTTL` passes, for the TTLs
`firstTTL .. firstTTL+maxTTL-1` in ascending order; every pass returns an
empty responding address, `numProbes` markers `"*"`, `allFailed` true and no
error; the destination-reached flag stays false and the run returns no error. -/
theorem all_timeouts_sweep (cfg : TracerouteConfig) (env : Env)
    (hpriv : env.privileged = true) (hlisten : env.listenOk = true)
    (hmax : 0 ≤ cfg.maxTTL)
    (hfit : fitsInt (cfg.firstTTL + cfg.maxTTL)) (hdest : cfg.destIP ≠ "")
    (hmem : slicesFit cfg env)
    (hto : ∀ k, env.listener k = ReadResult.timeout) :
    (runTraceroute cfg env).passes =
      (List.range cfg.maxTTL.toNat).map (fun j : Nat =>
        ({ ttl := cfg.firstTTL + j,
           ret := { respondingIP := "",
                    results := List.replicate cfg.numProbes.toNat Entry.star,
                    allFailed := true, err := none } } : Pass)) ∧
    ((runTraceroute cfg env).passes.length : Int) = cfg.maxTTL ∧
    (runTraceroute cfg env).destinationReached = false ∧
    (runTraceroute cfg env).err = none := by
  have hpass : ∀ j, (passAt cfg env j).ret = silentReturn cfg := fun j =>
    sendProbes_silent _ cfg env _ hmem.1
      (fun i _ => haltOf_of_fit cfg env _ _ i hmem (replyOf_timeouts cfg env hto _ _ i).1)
      (fun i => (replyOf_timeouts cfg env hto _ _ i).2)
  have hcont : ∀ j, j < ttlBudget cfg → Continues cfg (passAt cfg env j).ret := by
    intro j _
    rw [hpass j]
    exact ⟨rfl, fun h => hdest h.symm⟩
  rw [runTraceroute_started cfg env hpriv hlisten,
    sweepRun_spec cfg env _ (Nat.le_refl _) hcont, ttlBudget_of_fits cfg hfit]
  refine ⟨?_, ?_, rfl, rfl⟩
  · simp only [sweepSpec]
    apply List.map_congr_left
    intro j _
    have := hpass j
    simp only [passAt, silentReturn] at this ⊢
    rw [this]
  · simp only [sweepSpec, List.length_map, List.length_range]
    omega

/-- Witness for C7 amended: three TTLs, three probes a pass, every read times
out. -/
theorem all_timeouts_sweep_witness :
    (runTraceroute cfgDemo envQuiet).passes =
      (List.range cfgDemo.maxTTL.toNat).map (fun j : Nat =>
        ({ ttl := cfgDemo.firstTTL + j,
           ret := { respondingIP := "",
                    results := List.replicate cfgDemo.numProbes.toNat Entry.star,
                    allFailed := true, err := none } } : Pass)) ∧
    ((runTraceroute cfgDemo envQuiet).passes.length : Int) = cfgDemo.maxTTL ∧
    (runTraceroute cfgDemo envQuiet).destinationReached = false ∧
    (runTraceroute cfgDemo envQuiet).err = none :=
  all_timeouts_sweep cfgDemo envQuiet rfl rfl (by decide) ⟨by decide, by decide⟩
    (by decide) ⟨by decide, by decide, by decide⟩ (fun _ => rfl)

/-- C8, as stated, fails on two inputs with `firstTTL = 1`, `maxTTL >= k` and
`numProbes = 3`.  With `maxTTL = 9223372036854775807` and `k = 5`, routers
answering at the TTLs 1 to 4 and the destination answering every probe at
TTL 5, the bound `firstTTL+maxTTL` wraps around and no pass is run.  With
`k = 2`, the first read of the pass for TTL 1 fails with an error other than a
timeout (so no response at TTL 1 comes from the destination) and the
destination answers every probe at TTL 2; the run ends with the error in the
pass for TTL 1. -/
theorem destination_at_k_refuted :
    (cfgHuge.firstTTL = 1 ∧ (5 : Int) ≤ cfgHuge.maxTTL ∧ 1 ≤ cfgHuge.numProbes ∧
      (List.range 4).map (fun j => (List.range 3).map (replyAt cfgHuge envFiveHops j)) =
        List.replicate 4 (List.replicate 3
          (some (ReadResult.packet (some ICMPTypeTimeExceeded) "10.0.0.1"))) ∧
      (List.range 3).map (replyAt cfgHuge envFiveHops 4) =
        List.replicate 3 (some (ReadResult.packet (some ICMPTypeEchoReply) cfgHuge.destIP)) ∧
      (runTraceroute cfgHuge envFiveHops).passes = [] ∧
      (runTraceroute cfgHuge envFiveHops).destinationReached = false) ∧
    (cfgDemo.firstTTL = 1 ∧ (2 : Int) ≤ cfgDemo.maxTTL ∧ 1 ≤ cfgDemo.numProbes ∧
      (List.range 3).map (replyAt cfgDemo envBrokenFirst 0) =
        [some ReadResult.ioError, some ReadResult.timeout, some ReadResult.timeout] ∧
      (List.range 3).map (replyAt cfgDemo envBrokenFirst 1) =
        List.replicate 3 (some (ReadResult.packet (some ICMPTypeEchoReply) cfgDemo.destIP)) ∧
      (runTraceroute cfgDemo envBrokenFirst).passes.map Pass.ttl = [1] ∧
      (runTraceroute cfgDemo envBrokenFirst).err = some RunError.readFailed ∧
      (runTraceroute cfgDemo envBrokenFirst).destinationReached = false) := by
  refine ⟨?_, ?_⟩ <;> decide

/-- C8, amended: with `firstTTL = 1`, `1 <= k <= maxTTL`, `numProbes >= 1`, a
bound `firstTTL+maxTTL` within the range of `int`, an acquired listener whose
sender addresses are never the empty string, if at the TTLs `1 .. k-1` no read
fails with an error other than a timeout and no response comes from the
destination IP, and at TTL `k` every probe receives an echo reply from the
destination IP, then `runTraceroute` runs exactly `k` passes, for the TTLs
`1 .. k`; the last pass returns the destination IP as responding address; the
destination-reached flag is set; the run returns no error; and no probe is
attempted at a TTL above `k`. -/
theorem destination_reached_at_k (cfg : TracerouteConfig) (env : Env) (k : Nat)
    (hpriv : env.privileged = true) (hlisten : env.listenOk = true)
    (hfirst : cfg.firstTTL = 1) (hk : 1 ≤ k) (hmax : (k : Int) ≤ cfg.maxTTL)
    (hn : 1 ≤ cfg.numProbes)
    (hfit : fitsInt (cfg.firstTTL + cfg.maxTTL))
    (hpeer : ∀ r ty, env.listener r ≠ ReadResult.packet ty "")
    (hnoerr : ∀ j i : Nat, j + 1 < k → (i : Int) < cfg.numProbes →
      replyAt cfg env j i ≠ some ReadResult.ioError)
    (hother : ∀ j i : Nat, j + 1 < k → (i : Int) < cfg.numProbes →
      ∀ ty, replyAt cfg env j i ≠ some (ReadResult.packet ty cfg.destIP))
    (hecho : ∀ i : Nat, (i : Int) < cfg.numProbes →
      replyAt cfg env (k - 1) i = some (ReadResult.packet (some ICMPTypeEchoReply) cfg.destIP)) :
    (runTraceroute cfg env).passes.map Pass.ttl = (List.range k).map (fun j : Nat => (1 : Int) + j) ∧
    (∃ p, (runTraceroute cfg env).passes.getLast? = some p ∧ p.ttl = k ∧
      p.ret.respondingIP = cfg.destIP ∧ p.ret.err = none) ∧
    (runTraceroute cfg env).destinationReached = true ∧
    (runTraceroute cfg env).err = none ∧
    ∀ a, a ∈ (runTraceroute cfg env).world.issued → a.1 ≤ k := by
  have hnpos : 0 < cfg.numProbes.toNat := by omega
  obtain ⟨K, rfl⟩ : ∃ K, k = K + 1 := ⟨k - 1, by omega⟩
  simp only [Nat.add_sub_cancel] at hecho
  -- a probe that receives an answer shows that the slices can be made
  have hmem : slicesFit cfg env := slicesFit_of_reply cfg env _ _ 0 _ (hecho 0 (by omega))
  have hn0 := hmem.1
  -- the destination address is a sender address, hence not empty
  have hdest : cfg.destIP ≠ "" := by
    intro hempty
    have h0 := hecho 0 (by omega)
    unfold replyAt replyOf at h0
    split at h0
    · simp only [Option.some.injEq] at h0
      rw [hempty] at h0
      exact hpeer _ _ h0
    · simp at h0
  have hio : ∀ j', j' ≤ K → ∀ i, i < cfg.numProbes.toNat →
      haltOf cfg env (cfg.firstTTL + j') (readsBefore cfg env j') i = none := by
    intro j' hj' i hi
    apply haltOf_of_fit cfg env _ _ i hmem
    show replyAt cfg env j' i ≠ some ReadResult.ioError
    rcases Nat.lt_or_ge j' K with hlt | hge
    · exact hnoerr j' i (by omega) (by omega)
    · have hjK : j' = K := by omega
      subst hjK
      rw [hecho i (by omega)]
      simp
  have hcont : ∀ j, j < K → Continues cfg (passAt cfg env j).ret := by
    intro j hj
    rw [passAt_ok cfg env hn0 j (fun j' hj' => hio j' (by omega))]
    refine ⟨rfl, ?_⟩
    show lastResponder cfg env _ _ _ ≠ cfg.destIP
    rcases lastResponder_cases cfg env (cfg.firstTTL + j) (readsBefore cfg env j)
        cfg.numProbes.toNat with h | ⟨i, hi, h⟩
    · rw [h]
      exact fun h' => hdest h'.symm
    · intro heq
      obtain ⟨ty, hty⟩ := responder_some cfg _ _ h
      rw [heq] at hty
      exact hother j i (by omega) (by omega) (some ty) hty
  have hlastK : (passAt cfg env K).ret.respondingIP = cfg.destIP ∧
      (passAt cfg env K).ret.err = none := by
    rw [passAt_ok cfg env hn0 K hio]
    refine ⟨?_, rfl⟩
    show lastResponder cfg env _ _ _ = cfg.destIP
    apply lastResponder_last cfg env _ _ (cfg.numProbes.toNat - 1) cfg.destIP
    · have := hecho (cfg.numProbes.toNat - 1) (by omega)
      unfold replyAt at this
      rw [this]
      exact responder_echo_destination cfg
    · omega
    · intro j h1 h2
      omega
  have hstop : ¬ Continues cfg (passAt cfg env K).ret := fun hc => hc.2 hlastK.1
  have hbudget : K < ttlBudget cfg := by
    rw [ttlBudget_of_fits cfg hfit]
    omega
  have hrun : runTraceroute cfg env = sweepStop cfg env K := by
    rw [runTraceroute_started cfg env hpriv hlisten]
    exact sweepRun_stop cfg env K hbudget hcont hstop _ hbudget
  have hstopState : sweepStop cfg env K =
      { ttl := cfg.firstTTL + (K + 1 : Nat), destinationReached := true, err := none,
        passes := (List.range (K + 1)).map (passAt cfg env),
        world := worldAt cfg env (K + 1) } := by
    unfold sweepStop
    rw [hlastK.2]
  rw [hrun, hstopState]
  refine ⟨?_, ⟨passAt cfg env K, ?_, ?_, hlastK.1, hlastK.2⟩, rfl, rfl, ?_⟩
  · simp only [List.map_map]
    apply List.map_congr_left
    intro j _
    simp [passAt, hfirst]
  · simp [List.range_succ]
  · simp only [passAt, hfirst]
    push_cast
    omega
  · intro a ha
    have := worldAt_issued cfg env (K + 1) a ha
    rw [hfirst] at this
    push_cast at this ⊢
    omega

/-- Witness for C8 amended (`k = 5`, `numProbes = 3`, `maxTTL = 64`): routers
answer at the TTLs 1 to 4 and the destination answers the three probes at
TTL 5. -/
theorem destination_reached_at_k_witness :
    (runTraceroute cfgDefault envFiveHops).passes.map Pass.ttl =
      (List.range 5).map (fun j : Nat => (1 : Int) + j) ∧
    (∃ p, (runTraceroute cfgDefault envFiveHops).passes.getLast? = some p ∧ p.ttl = (5 : Nat) ∧
      p.ret.respondingIP = cfgDefault.destIP ∧ p.ret.err = none) ∧
    (runTraceroute cfgDefault envFiveHops).destinationReached = true ∧
    (runTraceroute cfgDefault envFiveHops).err = none ∧
    ∀ a, a ∈ (runTraceroute cfgDefault envFiveHops).world.issued → a.1 ≤ (5 : Nat) :=
  destination_reached_at_k cfgDefault envFiveHops 5 rfl rfl rfl (by decide) (by decide)
    (by decide) ⟨by decide, by decide⟩
    (fun r ty h => by
      unfold envFiveHops at h
      simp only at h
      split at h <;> simp at h)
    (fun j i hj hi => by
      have hj' : j < 4 := by omega
      have hi' : i < 3 := by
        have h3 : cfgDefault.numProbes = 3 := rfl
        omega
      interval_cases j <;> interval_cases i <;> decide)
    (fun j i hj hi ty => by
      have hj' : j < 4 := by omega
      have hi' : i < 3 := by
        have h3 : cfgDefault.numProbes = 3 := rfl
        omega
      interval_cases j <;> interval_cases i <;>
        simp [replyAt, replyOf, readsBefore, readIx, sendSide, allocOk, maxAlloc, envFiveHops,
          envQuiet, cfgDefault, cfgDemo])
    (fun i hi => by
      have hi' : i < 3 := by
        have h3 : cfgDefault.numProbes = 3 := rfl
        omega
      interval_cases i <;> decide)

end Traceroute
